import Mathlib

/-!
# OrbitControls

A shallow embedding of `src/three/OrbitControls.js`: the controller object becomes a
record, and `update`, `_onMouseDown`, `_onMouseMove`, `_onMouseWheel` and the `mouseup`
listener become functions from record to record.

Numbers are the elements of a linearly ordered field `α` (exact arithmetic, no rounding,
no NaN); the one JavaScript `Infinity` of the file, the default of `maxDistance` and
`maxZoom`, is `none` in an `Option α`.

The code computes in doubles.  A statement here speaks for the code where every value it
involves is a finite number, up to rounding: the field has no overflow to `Infinity` and
no NaN, and its `x / 0` is 0.  Statements whose truth in the code depends on that carry
the hypothesis that the value in question is finite (magnitude at most `MAX_VALUE`) or
that the divisor is not 0.

The file imports `./three.module.min.js`, which is not part of the sources at hand.  What
`OrbitControls.js` calls from it, and `Math.PI`, is gathered in the record `Three`, and
every function of the embedding takes such a record as its first argument.
-/

namespace Orbit

variable {α : Type}

/-! ## Value types of the three.js module -/

/-- Fields of a three.js `Vector2`. -/
structure Vector2 (α : Type) where
  x : α
  y : α
  deriving DecidableEq, Repr

/-- Fields of a three.js `Vector3`. -/
structure Vector3 (α : Type) where
  x : α
  y : α
  z : α
  deriving DecidableEq, Repr

/-- Fields of a three.js `Spherical`: radius, polar angle phi, azimuthal angle theta. -/
structure Spherical (α : Type) where
  radius : α
  phi : α
  theta : α
  deriving DecidableEq, Repr

/-- Fields of a three.js `Quaternion`. -/
structure Quaternion (α : Type) where
  x : α
  y : α
  z : α
  w : α
  deriving DecidableEq, Repr

/-- What the controller reads and writes of the camera (`this.object`): its position, its
up vector and its orientation. -/
structure Object3D (α : Type) where
  position : Vector3 α
  up : Vector3 α
  quaternion : Quaternion α
  deriving DecidableEq, Repr

/-- Modelled from the spec: `Vector3.sub` of the three.js module (not under src/), the
`position − target` of step 1 of the spec's algorithm, component by component. -/
def Vector3.sub [Sub α] (a b : Vector3 α) : Vector3 α :=
  ⟨a.x - b.x, a.y - b.y, a.z - b.z⟩

/-- Modelled from the spec: `Vector3.add` of the three.js module (not under src/), the
`target + offset` of step 7 of the spec's algorithm, component by component. -/
def Vector3.add [Add α] (a b : Vector3 α) : Vector3 α :=
  ⟨a.x + b.x, a.y + b.y, a.z + b.z⟩

/-- Modelled from the spec: `Vector2.subVectors` of the three.js module (not under src/),
the `delta = (x,y) − lastRotateRef` of the spec's input translator. -/
def Vector2.subVectors [Sub α] (a b : Vector2 α) : Vector2 α :=
  ⟨a.x - b.x, a.y - b.y⟩

/-! ## The imported module -/

/-- The part of `./three.module.min.js` (and of the JavaScript runtime) that
`OrbitControls.js` uses and that is not under src/.  Each field stands for the library
function or constant of the same name; nothing is assumed about them beyond their types. -/
structure Three (α : Type) where
  /-- The constant `Math.PI`. -/
  PI : α
  /-- The epsilon by which `Spherical.makeSafe` keeps phi away from the poles. -/
  EPS : α
  /-- The object `new Vector3()` creates. -/
  newVector3 : Vector3 α
  /-- The object `new Vector2()` creates. -/
  newVector2 : Vector2 α
  /-- The object `new Spherical()` creates. -/
  newSpherical : Spherical α
  /-- The object `new Quaternion()` creates. -/
  newQuaternion : Quaternion α
  /-- The constant `MOUSE.ROTATE`. -/
  MOUSE_ROTATE : Int
  /-- The constant `MOUSE.DOLLY`. -/
  MOUSE_DOLLY : Int
  /-- The constant `MOUSE.PAN`. -/
  MOUSE_PAN : Int
  /-- The constant `TOUCH.ROTATE`. -/
  TOUCH_ROTATE : Int
  /-- The constant `TOUCH.DOLLY_PAN`. -/
  TOUCH_DOLLY_PAN : Int
  /-- The method `Spherical.setFromVector3`: Cartesian offset to (radius, phi, theta). -/
  setFromVector3 : Vector3 α → Spherical α
  /-- The method `Vector3.setFromSpherical`: (radius, phi, theta) to Cartesian offset. -/
  setFromSpherical : Spherical α → Vector3 α
  /-- The method `Vector3.applyQuaternion`: the vector rotated by the quaternion. -/
  applyQuaternion : Vector3 α → Quaternion α → Vector3 α
  /-- The method `Quaternion.setFromUnitVectors`: the rotation taking the first vector to
  the second. -/
  setFromUnitVectors : Vector3 α → Vector3 α → Quaternion α
  /-- The method `Quaternion.invert` (on a clone). -/
  invert : Quaternion α → Quaternion α
  /-- The method `Object3D.lookAt`: the orientation of the object once it looks at the
  given point. -/
  lookAt : Object3D α → Vector3 α → Quaternion α

/-- Modelled from the spec: `Spherical.makeSafe` of the three.js module (not under src/).
Step 3 of the spec's algorithm has it "clamp away from 0/π by machine epsilon": phi is
clamped to `[EPS, PI − EPS]`, radius and theta are left alone. -/
def makeSafe [LinearOrderedField α] (T : Three α) (s : Spherical α) : Spherical α :=
  { s with phi := max T.EPS (min (T.PI - T.EPS) s.phi) }

/-- The constant `Number.MAX_VALUE`, the largest finite double, `2^1024 - 2^971`.  A value
of the code is a finite number, neither infinite nor NaN, exactly when its magnitude is at
most this. -/
def MAX_VALUE [LinearOrderedField α] : α := 2 ^ 1024 - 2 ^ 971

/-- The value of `Math.min(m, r)` where `m` may be the `Infinity` of JavaScript (`none`). -/
def mathMin [LinearOrderedField α] : Option α → α → α
  | none, r => r
  | some m, r => min m r

/-- The order `x ≤ m` where `m` may be the `Infinity` of JavaScript (`none`). -/
def leInf [LinearOrderedField α] (x : α) : Option α → Prop
  | none => True
  | some m => x ≤ m

instance [LinearOrderedField α] (x : α) (m : Option α) : Decidable (leInf x m) :=
  match m with
  | none => isTrue trivial
  | some b => inferInstanceAs (Decidable (x ≤ b))

/-! ## The controller -/

/-- The module constant `_STATE` (lines 30-39). -/
structure StateCodes where
  NONE : Int := -1
  ROTATE : Int := 0
  DOLLY : Int := 1
  PAN : Int := 2
  TOUCH_ROTATE : Int := 3
  TOUCH_PAN : Int := 4
  TOUCH_DOLLY_PAN : Int := 5
  TOUCH_DOLLY_ROTATE : Int := 6

/-- The module constant `_STATE`. -/
def _STATE : StateCodes := {}

/-- The module constant `_EPS` (line 41). -/
def _EPS [LinearOrderedField α] : α := 0.000001

/-- The events the module declares (lines 19-21). -/
inductive Event where
  | _changeEvent
  | _startEvent
  | _endEvent
  deriving DecidableEq, Repr

/-- The `mouseButtons` object of the constructor (lines 74-78). -/
structure MouseButtons where
  LEFT : Int
  MIDDLE : Int
  RIGHT : Int
  deriving DecidableEq, Repr

/-- The `touches` object of the constructor (lines 80-83). -/
structure Touches where
  ONE : Int
  TWO : Int
  deriving DecidableEq, Repr

/-- The fields of an `OrbitControls` instance, as the constructor (lines 45-114) creates
them.  `_state` is not set by the constructor, so it starts out `undefined` (`none`).
`dispatched` lists the events handed to `dispatchEvent`, oldest first. -/
structure OrbitControls (α : Type) where
  object : Object3D α
  target : Vector3 α
  cursor : Vector3 α
  minDistance : α
  maxDistance : Option α
  minZoom : α
  maxZoom : Option α
  minPolarAngle : α
  maxPolarAngle : α
  enableDamping : Bool
  dampingFactor : α
  enableZoom : Bool
  zoomSpeed : α
  enableRotate : Bool
  rotateSpeed : α
  enablePan : Bool
  panSpeed : α
  screenSpacePanning : Bool
  mouseButtons : MouseButtons
  touches : Touches
  _spherical : Spherical α
  _sphericalDelta : Spherical α
  _scale : α
  _panOffset : Vector3 α
  _rotateStart : Vector2 α
  _rotateEnd : Vector2 α
  _rotateDelta : Vector2 α
  _panStart : Vector2 α
  _panEnd : Vector2 α
  _panDelta : Vector2 α
  _dollyStart : Vector2 α
  _dollyEnd : Vector2 α
  _dollyDelta : Vector2 α
  _quat : Quaternion α
  _quatInverse : Quaternion α
  _lastPosition : Vector3 α
  _lastQuaternion : Quaternion α
  _state : Option Int
  dispatched : List Event

/-- The four bounds of the controller: `minDistance`, `maxDistance`, `minPolarAngle`,
`maxPolarAngle`. -/
structure Limits (α : Type) where
  minDistance : α
  maxDistance : Option α
  minPolarAngle : α
  maxPolarAngle : α

/-- What a handler reads of a mouse event. -/
structure MouseEvent (α : Type) where
  button : Int
  clientX : α
  clientY : α

/-- What `_onMouseWheel` reads of a wheel event. -/
structure WheelEvent (α : Type) where
  deltaY : α

section
variable [LinearOrderedField α]

/-- Lines 126-129 of `update`: the spherical coordinates of the camera's offset from the
target, in the up-aligned basis. -/
def rawSpherical (T : Three α) (c : OrbitControls α) : Spherical α :=
  T.setFromVector3 (T.applyQuaternion (c.object.position.sub c.target) c._quat)

/-- Lines 126-141 of `update`: the value of `this._spherical` once the pending deltas and
the scale are applied and the limits enforced. -/
def updateSpherical (T : Three α) (c : OrbitControls α) : Spherical α :=
  let s := rawSpherical T c
  let s := { s with theta := s.theta + c._sphericalDelta.theta }
  let s := { s with phi := s.phi + c._sphericalDelta.phi }
  let s := { s with phi := max c.minPolarAngle (min c.maxPolarAngle s.phi) }
  let s := makeSafe T s
  let s := { s with radius := s.radius * c._scale }
  { s with radius := max c.minDistance (mathMin c.maxDistance s.radius) }

/-- The bounds that `update()` enforces: the configured distance and polar-angle limits. -/
def limits (c : OrbitControls α) : Limits α :=
  ⟨c.minDistance, c.maxDistance, c.minPolarAngle, c.maxPolarAngle⟩

/-- The method `update()` (lines 125-152): the controller after the call, and the value
returned. -/
def update (T : Three α) (c : OrbitControls α) : OrbitControls α × Bool :=
  let s := updateSpherical T c
  let v := T.applyQuaternion (T.setFromSpherical s) c._quatInverse
  let object := { c.object with position := c.target.add v }
  let object := { object with quaternion := T.lookAt object c.target }
  ({ c with
      object := object
      _spherical := s
      _sphericalDelta := ⟨0, 0, 0⟩
      _scale := 1 },
   true)

/-- The method `_onMouseDown(event)` (lines 154-162). -/
def _onMouseDown (c : OrbitControls α) (event : MouseEvent α) : OrbitControls α :=
  let c := if event.button = 0 then { c with _state := some _STATE.ROTATE } else c
  let c := if event.button = 1 then { c with _state := some _STATE.DOLLY } else c
  let c := if event.button = 2 then { c with _state := some _STATE.PAN } else c
  { c with
    _rotateStart := ⟨event.clientX, event.clientY⟩
    _panStart := ⟨event.clientX, event.clientY⟩
    _dollyStart := ⟨event.clientX, event.clientY⟩ }

/-- Lines 166-170: the Rotate branch of `_onMouseMove` up to its call of `update()`.
`innerHeight` is `window.innerHeight`, read when the event arrives.  For `innerHeight = 0`
the code divides to an infinite or NaN delta, where the field has `x / 0 = 0`: what is
stated about this branch is stated for `innerHeight` other than 0. -/
def rotateBranch (T : Three α) (c : OrbitControls α) (event : MouseEvent α)
    (innerHeight : α) : OrbitControls α :=
  let c := { c with _rotateEnd := ⟨event.clientX, event.clientY⟩ }
  let c := { c with _rotateDelta := Vector2.subVectors c._rotateEnd c._rotateStart }
  let c := { c with _sphericalDelta :=
    { c._sphericalDelta with
      theta := c._sphericalDelta.theta - 2 * T.PI * c._rotateDelta.x / innerHeight } }
  let c := { c with _sphericalDelta :=
    { c._sphericalDelta with
      phi := c._sphericalDelta.phi - 2 * T.PI * c._rotateDelta.y / innerHeight } }
  { c with _rotateStart := c._rotateEnd }

/-- Lines 175-178: the Dolly branch of `_onMouseMove` up to its call of `update()`. -/
def dollyBranch (c : OrbitControls α) (event : MouseEvent α) : OrbitControls α :=
  let c := { c with _dollyEnd := ⟨event.clientX, event.clientY⟩ }
  let c := { c with _dollyDelta := Vector2.subVectors c._dollyEnd c._dollyStart }
  let c := { c with _scale := c._scale * (1 + c._dollyDelta.y * 0.005) }
  { c with _dollyStart := c._dollyEnd }

/-- The method `_onMouseMove(event)` (lines 164-181). -/
def _onMouseMove (T : Three α) (c : OrbitControls α) (event : MouseEvent α)
    (innerHeight : α) : OrbitControls α :=
  let c := if c._state = some _STATE.ROTATE
    then (update T (rotateBranch T c event innerHeight)).1 else c
  let c := if c._state = some _STATE.DOLLY
    then (update T (dollyBranch c event)).1 else c
  c

/-- Line 185: `_onMouseWheel` up to its call of `update()`. -/
def wheelBranch (c : OrbitControls α) (event : WheelEvent α) : OrbitControls α :=
  { c with _scale := c._scale * (if event.deltaY > 0 then 1.1 else 0.9) }

/-- The method `_onMouseWheel(event)` (lines 183-187). -/
def _onMouseWheel (T : Three α) (c : OrbitControls α) (event : WheelEvent α) :
    OrbitControls α :=
  (update T (wheelBranch c event)).1

/-- The `mouseup` listener that `connect` installs (line 122). -/
def mouseup (c : OrbitControls α) : OrbitControls α :=
  { c with _state := some _STATE.NONE }

/-- The constructor (lines 45-114) for a camera `object`; `connect` only registers the
listeners, so the fields are those of lines 48-107 after the `update()` of line 113. -/
def constructor (T : Three α) (object : Object3D α) : OrbitControls α :=
  let quat := T.setFromUnitVectors object.up ⟨0, 1, 0⟩
  (update T
    { object := object
      target := T.newVector3
      cursor := T.newVector3
      minDistance := 0
      maxDistance := none
      minZoom := 0
      maxZoom := none
      minPolarAngle := 0
      maxPolarAngle := T.PI
      enableDamping := true
      dampingFactor := 0.06
      enableZoom := true
      zoomSpeed := 1.0
      enableRotate := true
      rotateSpeed := 1.0
      enablePan := true
      panSpeed := 1.0
      screenSpacePanning := true
      mouseButtons := ⟨T.MOUSE_ROTATE, T.MOUSE_DOLLY, T.MOUSE_PAN⟩
      touches := ⟨T.TOUCH_ROTATE, T.TOUCH_DOLLY_PAN⟩
      _spherical := T.newSpherical
      _sphericalDelta := T.newSpherical
      _scale := 1
      _panOffset := T.newVector3
      _rotateStart := T.newVector2
      _rotateEnd := T.newVector2
      _rotateDelta := T.newVector2
      _panStart := T.newVector2
      _panEnd := T.newVector2
      _panDelta := T.newVector2
      _dollyStart := T.newVector2
      _dollyEnd := T.newVector2
      _dollyDelta := T.newVector2
      _quat := quat
      _quatInverse := T.invert quat
      _lastPosition := T.newVector3
      _lastQuaternion := T.newQuaternion
      _state := none
      dispatched := [] }).1

/-- One event delivered to the listeners that `connect` registers (lines 119-122). -/
inductive Input (α : Type) where
  | wheel (event : WheelEvent α)
  | mousedown (event : MouseEvent α)
  | mousemove (event : MouseEvent α) (innerHeight : α)
  | mouseup

/-- The listener of `connect` that an event reaches. -/
def dispatch (T : Three α) (c : OrbitControls α) : Input α → OrbitControls α
  | .wheel event => _onMouseWheel T c event
  | .mousedown event => _onMouseDown c event
  | .mousemove event innerHeight => _onMouseMove T c event innerHeight
  | .mouseup => mouseup c

/-- A finite sequence of events, delivered in order. -/
def run (T : Three α) (c : OrbitControls α) (inputs : List (Input α)) : OrbitControls α :=
  inputs.foldl (dispatch T) c

/-- The controller after `n` calls of `update()` with no input in between. -/
def updateN (T : Three α) : Nat → OrbitControls α → OrbitControls α
  | 0, c => c
  | n + 1, c => updateN T n (update T c).1

/-- The change of theta that one call of `update()` applies: theta as held after the call
(line 131) less theta as the call derived it from the camera position (line 129). -/
def thetaApplied (T : Three α) (c : OrbitControls α) : α :=
  (update T c).1._spherical.theta - (rawSpherical T c).theta

/-- The sum of the theta changes applied by `n` calls of `update()` in a row. -/
def appliedThetaSum (T : Three α) : Nat → OrbitControls α → α
  | 0, _ => 0
  | n + 1, c => thetaApplied T c + appliedThetaSum T n (update T c).1

/-- Lines 134-137 of `update`: the polar clamp, before the pole guard of line 139. -/
def polarClamp (c : OrbitControls α) (phi : α) : α :=
  max c.minPolarAngle (min c.maxPolarAngle phi)

/-- Line 141 of `update`: the distance clamp. -/
def distanceClamp (c : OrbitControls α) (radius : α) : α :=
  max c.minDistance (mathMin c.maxDistance radius)

/-- The limit step of `update` on a raw spherical position: lines 134-139 for phi (the
polar clamp, then the pole guard) and line 141 for the radius. -/
def enforceLimits (T : Three α) (c : OrbitControls α) (s : Spherical α) : Spherical α :=
  let s := { s with phi := polarClamp c s.phi }
  let s := makeSafe T s
  { s with radius := distanceClamp c s.radius }

/-- The clamp in the words of the spec (section 4.3): `min(max(x, lo), hi)`. -/
def specClamp (x lo hi : α) : α := min (max x lo) hi

/-- The entry of a `mouseButtons` map for a button: `LEFT` for 0, `MIDDLE` for 1, `RIGHT`
for 2. -/
def mappedAction (m : MouseButtons) (button : Int) : Option Int :=
  if button = 0 then some m.LEFT
  else if button = 1 then some m.MIDDLE
  else if button = 2 then some m.RIGHT
  else none

/-- The interaction state for a pointer-down in the words of the spec (section 4.1): the
state of the action that the button→action map assigns to the button, `_STATE.ROTATE` for
`MOUSE.ROTATE`, `_STATE.DOLLY` for `MOUSE.DOLLY`, `_STATE.PAN` for `MOUSE.PAN`. -/
def specPointerDownState (T : Three α) (m : MouseButtons) (button : Int) : Option Int :=
  match mappedAction m button with
  | none => none
  | some action =>
    if action = T.MOUSE_ROTATE then some _STATE.ROTATE
    else if action = T.MOUSE_DOLLY then some _STATE.DOLLY
    else if action = T.MOUSE_PAN then some _STATE.PAN
    else none

end

/-! ## A rational instance of the imported module

Examples are evaluated over `ℚ` with the instance below.  The conversions between
Cartesian and spherical coordinates are irrational in general; the instance gives their
exact values for offsets on the z axis (x = y = 0), where they are rational in `PI`, and
examples keep the camera there. -/

/-- The double that `Math.PI` denotes, 884279719003555 / 2^48. -/
def doublePI : ℚ := 884279719003555 / 281474976710656

/-- The part of three.js used by the controller, over `ℚ`.  `PI` is the double that
`Math.PI` denotes.  `setFromVector3` is exact for offsets `(0, 0, z)`: radius `|z|`, and
phi = theta = 0 at the origin, else phi = PI/2 and theta = 0 (z > 0) or PI (z < 0).
`setFromSpherical` is exact for radius 0 and, at phi = PI/2, for theta = PI and for theta
an even multiple of PI.  `applyQuaternion` and `invert` are the library's formulas, exact
for every unit quaternion.  `setFromUnitVectors` is exact for two equal unit vectors, and
`lookAt` for a camera with up = (0, 1, 0) whose offset from the point is `(0, 0, d)`,
d ≥ 0. -/
def axisThree : Three ℚ where
  PI := doublePI
  EPS := 0.000001
  newVector3 := ⟨0, 0, 0⟩
  newVector2 := ⟨0, 0⟩
  newSpherical := ⟨1, 0, 0⟩
  newQuaternion := ⟨0, 0, 0, 1⟩
  MOUSE_ROTATE := 0
  MOUSE_DOLLY := 1
  MOUSE_PAN := 2
  TOUCH_ROTATE := 0
  TOUCH_DOLLY_PAN := 2
  setFromVector3 v :=
    ⟨|v.z|, if v.z = 0 then 0 else doublePI / 2, if v.z < 0 then doublePI else 0⟩
  setFromSpherical s := ⟨0, 0, if s.theta = doublePI then -s.radius else s.radius⟩
  applyQuaternion v q :=
    let tx := 2 * (q.y * v.z - q.z * v.y)
    let ty := 2 * (q.z * v.x - q.x * v.z)
    let tz := 2 * (q.x * v.y - q.y * v.x)
    ⟨v.x + q.w * tx + q.y * tz - q.z * ty,
     v.y + q.w * ty + q.z * tx - q.x * tz,
     v.z + q.w * tz + q.x * ty - q.y * tx⟩
  setFromUnitVectors _ _ := ⟨0, 0, 0, 1⟩
  invert q := ⟨-q.x, -q.y, -q.z, q.w⟩
  lookAt _ _ := ⟨0, 0, 0, 1⟩

/-- A camera at (0, 0, 10) with up = (0, 1, 0) and the identity orientation. -/
def camera10 : Object3D ℚ := ⟨⟨0, 0, 10⟩, ⟨0, 1, 0⟩, ⟨0, 0, 0, 1⟩⟩

/-- The controller that `new OrbitControls(camera10)` creates (see
`constructor_camera10`): target (0, 0, 0), every setting at its default, the camera at
radius 10, phi = PI/2, theta = 0. -/
def controls10 : OrbitControls ℚ where
  object := camera10
  target := ⟨0, 0, 0⟩
  cursor := ⟨0, 0, 0⟩
  minDistance := 0
  maxDistance := none
  minZoom := 0
  maxZoom := none
  minPolarAngle := 0
  maxPolarAngle := doublePI
  enableDamping := true
  dampingFactor := 0.06
  enableZoom := true
  zoomSpeed := 1
  enableRotate := true
  rotateSpeed := 1
  enablePan := true
  panSpeed := 1
  screenSpacePanning := true
  mouseButtons := ⟨0, 1, 2⟩
  touches := ⟨0, 2⟩
  _spherical := ⟨10, doublePI / 2, 0⟩
  _sphericalDelta := ⟨0, 0, 0⟩
  _scale := 1
  _panOffset := ⟨0, 0, 0⟩
  _rotateStart := ⟨0, 0⟩
  _rotateEnd := ⟨0, 0⟩
  _rotateDelta := ⟨0, 0⟩
  _panStart := ⟨0, 0⟩
  _panEnd := ⟨0, 0⟩
  _panDelta := ⟨0, 0⟩
  _dollyStart := ⟨0, 0⟩
  _dollyEnd := ⟨0, 0⟩
  _dollyDelta := ⟨0, 0⟩
  _quat := ⟨0, 0, 0, 1⟩
  _quatInverse := ⟨0, 0, 0, 1⟩
  _lastPosition := ⟨0, 0, 0⟩
  _lastQuaternion := ⟨0, 0, 0, 1⟩
  _state := none
  dispatched := []

/-- The default controller with damping switched off by the host. -/
def controlsUndamped : OrbitControls ℚ := { controls10 with enableDamping := false }

/-- The undamped controller in the middle of a rotate drag from (500, 100) to (0, 100) in
a viewport 500 high: `_onMouseMove` has run up to its call of `update()`, and the pending
delta-theta is `2 * PI`. -/
def fullTurnDrag : OrbitControls ℚ :=
  rotateBranch axisThree (_onMouseDown controlsUndamped ⟨0, 500, 100⟩) ⟨0, 0, 100⟩ 500

/-- The default controller with `rotateSpeed` set to 2 by the host, after a press of the
left button at (100, 100). -/
def rotatePressFast : OrbitControls ℚ :=
  _onMouseDown { controls10 with rotateSpeed := 2 } ⟨0, 100, 100⟩

/-- The default controller after a press of the left button at (100, 100). -/
def rotatePress : OrbitControls ℚ := _onMouseDown controls10 ⟨0, 100, 100⟩

/-- The default controller (damping enabled, factor 0.06) with a pending rotate impulse
delta-theta = 1. -/
def impulse : OrbitControls ℚ := { controls10 with _sphericalDelta := ⟨0, 0, 1⟩ }

/-- A dolly drag with the middle button from (0, 200) to (0, 0) in a viewport 500 high. -/
def dollyToZero : List (Input ℚ) := [.mousedown ⟨1, 0, 200⟩, .mousemove ⟨1, 0, 0⟩ 500]

/-- The controller with the distance bounds misordered by the host: `minDistance = 5`,
`maxDistance = 3`. -/
def misorderedDistance : OrbitControls ℚ :=
  { controls10 with minDistance := 5, maxDistance := some 3 }

/-- The controller with the polar bounds misordered by the host: `minPolarAngle = 2`,
`maxPolarAngle = 1`. -/
def misorderedPolar : OrbitControls ℚ :=
  { controls10 with minPolarAngle := 2, maxPolarAngle := 1 }

/-- The default controller with zooming disabled by the host. -/
def zoomDisabled : OrbitControls ℚ := { controls10 with enableZoom := false }

/-- The default controller with rotating disabled by the host, after a press of the left
button at (100, 100). -/
def rotateDisabledPress : OrbitControls ℚ :=
  _onMouseDown { controls10 with enableRotate := false } ⟨0, 100, 100⟩

/-- The default controller with the map changed by the host to LEFT: `MOUSE.PAN`,
MIDDLE: `MOUSE.DOLLY`, RIGHT: `MOUSE.ROTATE`. -/
def swappedButtons : OrbitControls ℚ := { controls10 with mouseButtons := ⟨2, 1, 0⟩ }

/-- The default controller after the pointer has gone up. -/
def released : OrbitControls ℚ := mouseup controls10

/-- The default controller after a press of the right button at (0, 0). -/
def panPress : OrbitControls ℚ := _onMouseDown controls10 ⟨2, 0, 0⟩

/-- The default controller after a press of the middle button at (0, 0). -/
def dollyPress : OrbitControls ℚ := _onMouseDown controls10 ⟨1, 0, 0⟩

/-- The undamped controller in the middle of a dolly drag from (0, 200) to (0, 0):
`_onMouseMove` has run up to its call of `update()`, and the pending scale is 0. -/
def zeroDolly : OrbitControls ℚ :=
  dollyBranch (_onMouseDown controlsUndamped ⟨1, 0, 200⟩) ⟨1, 0, 0⟩

/-- The undamped controller with `minDistance` set to -5 by the host, in the middle of a
dolly drag from (0, 400) to (0, 0): the pending scale is `1 + (0 - 400) * 0.005 = -1`. -/
def negativeFloorDolly : OrbitControls ℚ :=
  dollyBranch (_onMouseDown { controlsUndamped with minDistance := -5 } ⟨1, 0, 400⟩)
    ⟨1, 0, 0⟩

/-- The default controller with `minDistance` set to 5 by the host, at the call of
`update()` in `_onMouseWheel` for a wheel event with deltaY = +100. -/
def wheelAtFloor : OrbitControls ℚ :=
  wheelBranch { controls10 with minDistance := 5 } ⟨100⟩

/-- The default controller in the middle of a rotate drag from (100, 100) to (100, 50) in
a viewport 500 high, at the call of `update()` in `_onMouseMove`. -/
def rotateMoved : OrbitControls ℚ := rotateBranch axisThree rotatePress ⟨0, 100, 50⟩ 500

/-! ## The real-number instance of the imported module -/

/-- The real-number functions that the methods of the imported module compute in floating
point: `PI` is π, `setFromVector3` takes the radius as the length of the offset, phi as
the arccosine of `y / radius` and theta as the angle of `(x, z)` around the y axis (both 0
at the origin), `setFromSpherical` is its inverse direction, and `applyQuaternion` and
`invert` are the formulas of the library.  `setFromUnitVectors` is exact for two equal unit
vectors, and `lookAt` for a camera with up = (0, 1, 0) whose offset from the point is
`(0, 0, d)`, d ≥ 0. -/
noncomputable def realThree : Three ℝ where
  PI := Real.pi
  EPS := 0.000001
  newVector3 := ⟨0, 0, 0⟩
  newVector2 := ⟨0, 0⟩
  newSpherical := ⟨1, 0, 0⟩
  newQuaternion := ⟨0, 0, 0, 1⟩
  MOUSE_ROTATE := 0
  MOUSE_DOLLY := 1
  MOUSE_PAN := 2
  TOUCH_ROTATE := 0
  TOUCH_DOLLY_PAN := 2
  setFromVector3 v :=
    if Real.sqrt (v.x * v.x + v.y * v.y + v.z * v.z) = 0 then ⟨0, 0, 0⟩
    else
      ⟨Real.sqrt (v.x * v.x + v.y * v.y + v.z * v.z),
       Real.arccos (max (-1) (min 1 (v.y / Real.sqrt (v.x * v.x + v.y * v.y + v.z * v.z)))),
       Complex.arg ⟨v.z, v.x⟩⟩
  setFromSpherical s :=
    ⟨Real.sin s.phi * s.radius * Real.sin s.theta,
     Real.cos s.phi * s.radius,
     Real.sin s.phi * s.radius * Real.cos s.theta⟩
  applyQuaternion v q :=
    let tx := 2 * (q.y * v.z - q.z * v.y)
    let ty := 2 * (q.z * v.x - q.x * v.z)
    let tz := 2 * (q.x * v.y - q.y * v.x)
    ⟨v.x + q.w * tx + q.y * tz - q.z * ty,
     v.y + q.w * ty + q.z * tx - q.x * tz,
     v.z + q.w * tz + q.x * ty - q.y * tx⟩
  setFromUnitVectors _ _ := ⟨0, 0, 0, 1⟩
  invert q := ⟨-q.x, -q.y, -q.z, q.w⟩
  lookAt _ _ := ⟨0, 0, 0, 1⟩

/-- The controller `new OrbitControls(camera)` over the reals, for a camera at (0, 0, 10)
with up = (0, 1, 0). -/
noncomputable def realControls10 : OrbitControls ℝ :=
  constructor realThree ⟨⟨0, 0, 10⟩, ⟨0, 1, 0⟩, ⟨0, 0, 0, 1⟩⟩

/-- The controller over the reals in the middle of a dolly drag from (0, 200) to (0, 0):
`_onMouseMove` has run up to its call of `update()`, and the pending scale is 0. -/
noncomputable def realDollyToZero : OrbitControls ℝ :=
  dollyBranch (_onMouseDown realControls10 ⟨1, 0, 200⟩) ⟨1, 0, 0⟩

/-- The controller over the reals in the middle of a rotate drag from (500, 100) to
(0, 100) in a viewport 500 high, with a pending delta-theta of 2π. -/
noncomputable def realFullTurn : OrbitControls ℝ :=
  rotateBranch realThree (_onMouseDown realControls10 ⟨0, 500, 100⟩) ⟨0, 0, 100⟩ 500

/-! ## The sample controller is the constructed one -/

theorem constructor_camera10 : constructor axisThree camera10 = controls10 := by
  simp [constructor, update, updateSpherical, rawSpherical, makeSafe, mathMin, axisThree,
    camera10, controls10, Vector3.sub, Vector3.add]
  norm_num [doublePI]

/-! ## Clamps -/

section
variable [LinearOrderedField α]

theorem clamp_of_ge (a b x : α) (h : b ≤ a) : max a (min b x) = a :=
  max_eq_left ((min_le_left _ _).trans h)

theorem clamp_of_mem (a b x : α) (h1 : a ≤ x) (h2 : x ≤ b) : max a (min b x) = x := by
  rw [min_eq_right h2, max_eq_right h1]

/-- The clamp `Math.max(a, Math.min(b, x))` changes nothing when applied again. -/
theorem clamp_twice (a b x : α) :
    max a (min b (max a (min b x))) = max a (min b x) := by
  rcases le_total a b with h | h
  · exact clamp_of_mem a b _ (le_max_left _ _) (max_le h (min_le_left _ _))
  · rw [clamp_of_ge a b _ h, clamp_of_ge a b _ h]

/-- The clamp to `[a, b]` followed by the clamp to `[e, f]` changes nothing when the pair
is applied again. -/
theorem clamp_clamp_twice (a b e f x : α) :
    max e (min f (max a (min b (max e (min f (max a (min b x))))))) =
      max e (min f (max a (min b x))) := by
  rcases le_total b a with hba | hab
  · rw [clamp_of_ge a b _ hba, clamp_of_ge a b _ hba]
  rcases le_total f e with hfe | hef
  · rw [clamp_of_ge e f _ hfe, clamp_of_ge e f _ hfe]
  have ha : a ≤ max a (min b x) := le_max_left _ _
  have hb : max a (min b x) ≤ b := max_le hab (min_le_left _ _)
  generalize max a (min b x) = h at ha hb
  rcases le_total h e with he | he
  · rw [min_eq_right (he.trans hef), max_eq_left he]
    exact max_eq_left ((min_le_right _ _).trans (max_le (ha.trans he) (min_le_right _ _)))
  rcases le_total h f with hf | hf
  · rw [clamp_of_mem e f h he hf, clamp_of_mem a b h ha hb, clamp_of_mem e f h he hf]
  · rw [min_eq_left hf, max_eq_right hef, min_eq_right (hf.trans hb),
      min_eq_left (le_max_right _ _), max_eq_right hef]

/-- The distance clamp of line 141 changes nothing when applied again. -/
theorem distance_clamp_twice (lo : α) (hi : Option α) (x : α) :
    max lo (mathMin hi (max lo (mathMin hi x))) = max lo (mathMin hi x) := by
  cases hi with
  | none => exact max_eq_right (le_max_left _ _)
  | some m => exact clamp_twice lo m x

end

/-! ## How the handlers treat the limits and the spherical position -/

section
variable [LinearOrderedField α]

theorem update_limits (T : Three α) (c : OrbitControls α) :
    limits (update T c).1 = limits c := rfl

theorem update_spherical (T : Three α) (c : OrbitControls α) :
    (update T c).1._spherical = updateSpherical T c := rfl

theorem update_state (T : Three α) (c : OrbitControls α) :
    (update T c).1._state = c._state := rfl

theorem updateSpherical_radius (T : Three α) (c : OrbitControls α) :
    (updateSpherical T c).radius =
      max c.minDistance (mathMin c.maxDistance ((rawSpherical T c).radius * c._scale)) := rfl

theorem updateSpherical_phi (T : Three α) (c : OrbitControls α) :
    (updateSpherical T c).phi =
      max T.EPS (min (T.PI - T.EPS)
        (max c.minPolarAngle (min c.maxPolarAngle
          ((rawSpherical T c).phi + c._sphericalDelta.phi)))) := rfl

theorem updateSpherical_theta (T : Three α) (c : OrbitControls α) :
    (updateSpherical T c).theta = (rawSpherical T c).theta + c._sphericalDelta.theta := rfl

theorem dispatch_limits (T : Three α) (c : OrbitControls α) (i : Input α) :
    limits (dispatch T c i) = limits c := by
  cases i with
  | wheel event => rfl
  | mousedown event =>
    simp only [dispatch, _onMouseDown]
    split_ifs <;> rfl
  | mousemove event innerHeight =>
    simp only [dispatch, _onMouseMove]
    split_ifs <;> rfl
  | mouseup => rfl

/-- The clamp of line 141 never leaves the radius below `minDistance`. -/
theorem updateSpherical_radius_ge (T : Three α) (c : OrbitControls α) :
    c.minDistance ≤ (updateSpherical T c).radius := by
  rw [updateSpherical_radius]
  exact le_max_left _ _

/-- The clamps of lines 134-139 put phi between `EPS` and `PI - EPS`, when these two are
in order. -/
theorem updateSpherical_phi_safe (T : Three α) (c : OrbitControls α)
    (hP : T.EPS ≤ T.PI - T.EPS) :
    T.EPS ≤ (updateSpherical T c).phi ∧ (updateSpherical T c).phi ≤ T.PI - T.EPS := by
  rw [updateSpherical_phi]
  exact ⟨le_max_left _ _, max_le hP (min_le_left _ _)⟩

/-- The pole guard of line 139 leaves phi between the polar bounds when they are in order,
`EPS ≤ maxPolarAngle` and `minPolarAngle ≤ PI - EPS`. -/
theorem updateSpherical_phi_polar (T : Three α) (c : OrbitControls α)
    (hmm : c.minPolarAngle ≤ c.maxPolarAngle)
    (hlo : T.EPS ≤ c.maxPolarAngle) (hhi : c.minPolarAngle ≤ T.PI - T.EPS) :
    c.minPolarAngle ≤ (updateSpherical T c).phi ∧
      (updateSpherical T c).phi ≤ c.maxPolarAngle := by
  rw [updateSpherical_phi]
  have h1 : c.minPolarAngle ≤
      max c.minPolarAngle (min c.maxPolarAngle
        ((rawSpherical T c).phi + c._sphericalDelta.phi)) := le_max_left _ _
  have h2 : max c.minPolarAngle (min c.maxPolarAngle
        ((rawSpherical T c).phi + c._sphericalDelta.phi)) ≤ c.maxPolarAngle :=
    max_le hmm (min_le_left _ _)
  constructor
  · exact le_max_of_le_right (le_min hhi h1)
  · exact max_le hlo ((min_le_right _ _).trans h2)

end

/-! ## Repeated calls of `update()` -/

section
variable [LinearOrderedField α]

/-- One call applies the whole pending delta-theta. -/
theorem thetaApplied_eq (T : Three α) (c : OrbitControls α) :
    thetaApplied T c = c._sphericalDelta.theta := by
  unfold thetaApplied
  rw [update_spherical, updateSpherical_theta, add_sub_cancel_left]

theorem update_sphericalDelta (T : Three α) (c : OrbitControls α) :
    (update T c).1._sphericalDelta = ⟨0, 0, 0⟩ := rfl

theorem update_scale (T : Three α) (c : OrbitControls α) :
    (update T c).1._scale = 1 := rfl

/-- With nothing pending, further calls leave nothing pending. -/
theorem updateN_pending_zero (T : Three α) (n : Nat) (c : OrbitControls α)
    (h : c._sphericalDelta.theta = 0) : (updateN T n c)._sphericalDelta.theta = 0 := by
  induction n generalizing c with
  | zero => exact h
  | succ n ih => exact ih (update T c).1 rfl

/-- With nothing pending, further calls apply no change of theta. -/
theorem appliedThetaSum_pending_zero (T : Three α) (n : Nat) (c : OrbitControls α)
    (h : c._sphericalDelta.theta = 0) : appliedThetaSum T n c = 0 := by
  induction n generalizing c with
  | zero => rfl
  | succ n ih =>
    show thetaApplied T c + appliedThetaSum T n (update T c).1 = 0
    rw [thetaApplied_eq, h, ih (update T c).1 rfl, add_zero]

end

/-! ## The limit step, pointer moves, and what no handler touches -/

section
variable [LinearOrderedField α]

/-- What `update()` holds in `_spherical` is the limit step applied to the spherical
position of the camera with the pending deltas added and the radius scaled. -/
theorem updateSpherical_eq_enforceLimits (T : Three α) (c : OrbitControls α) :
    updateSpherical T c = enforceLimits T c
      ⟨(rawSpherical T c).radius * c._scale,
       (rawSpherical T c).phi + c._sphericalDelta.phi,
       (rawSpherical T c).theta + c._sphericalDelta.theta⟩ := rfl

/-- A pointer move changes nothing unless the state is Rotate or Dolly. -/
theorem _onMouseMove_of_other_state (T : Three α) (c : OrbitControls α)
    (event : MouseEvent α) (innerHeight : α) (hr : c._state ≠ some _STATE.ROTATE)
    (hd : c._state ≠ some _STATE.DOLLY) : _onMouseMove T c event innerHeight = c := by
  unfold _onMouseMove
  simp only [if_neg hr, if_neg hd]

/-- In the Dolly state a pointer move is the Dolly branch followed by `update()`. -/
theorem _onMouseMove_of_dolly (T : Three α) (c : OrbitControls α)
    (event : MouseEvent α) (innerHeight : α) (hd : c._state = some _STATE.DOLLY) :
    _onMouseMove T c event innerHeight = (update T (dollyBranch c event)).1 := by
  have hr : ¬ c._state = some _STATE.ROTATE := by rw [hd]; decide
  unfold _onMouseMove
  simp only [if_neg hr, if_pos hd]

/-- No handler moves the target or the pan offset. -/
theorem dispatch_target (T : Three α) (c : OrbitControls α) (i : Input α) :
    (dispatch T c i).target = c.target ∧ (dispatch T c i)._panOffset = c._panOffset := by
  cases i with
  | wheel event => exact ⟨rfl, rfl⟩
  | mousedown event =>
    simp only [dispatch, _onMouseDown]
    split_ifs <;> exact ⟨rfl, rfl⟩
  | mousemove event innerHeight =>
    simp only [dispatch, _onMouseMove]
    split_ifs <;> exact ⟨rfl, rfl⟩
  | mouseup => exact ⟨rfl, rfl⟩

/-- A handler leaves the pending deltas and the pending scale as they are, or consumed. -/
theorem dispatch_pending (T : Three α) (c : OrbitControls α) (i : Input α) :
    ((dispatch T c i)._sphericalDelta = c._sphericalDelta ∧
        (dispatch T c i)._scale = c._scale) ∨
      ((dispatch T c i)._sphericalDelta = ⟨0, 0, 0⟩ ∧ (dispatch T c i)._scale = 1) := by
  cases i with
  | wheel event => exact Or.inr ⟨rfl, rfl⟩
  | mousedown event =>
    left
    simp only [dispatch, _onMouseDown]
    split_ifs <;> exact ⟨rfl, rfl⟩
  | mousemove event innerHeight =>
    simp only [dispatch, _onMouseMove]
    split_ifs
    · exact Or.inr ⟨rfl, rfl⟩
    · exact Or.inr ⟨rfl, rfl⟩
    · exact Or.inr ⟨rfl, rfl⟩
    · exact Or.inl ⟨rfl, rfl⟩
  | mouseup => exact Or.inl ⟨rfl, rfl⟩

/-- Along any sequence of events the target and the limits stay, and nothing is pending
at the end if nothing was pending at the start. -/
theorem run_frame (T : Three α) (inputs : List (Input α)) (c : OrbitControls α) :
    (run T c inputs).target = c.target ∧ limits (run T c inputs) = limits c ∧
      (c._sphericalDelta = ⟨0, 0, 0⟩ → c._scale = 1 →
        (run T c inputs)._sphericalDelta = ⟨0, 0, 0⟩ ∧ (run T c inputs)._scale = 1) := by
  induction inputs generalizing c with
  | nil => exact ⟨rfl, rfl, fun h1 h2 => ⟨h1, h2⟩⟩
  | cons i rest ih =>
    obtain ⟨ht, hl, hp⟩ := ih (dispatch T c i)
    refine ⟨ht.trans (dispatch_target T c i).1, hl.trans (dispatch_limits T c i), ?_⟩
    intro h1 h2
    rcases dispatch_pending T c i with ⟨hs, hk⟩ | ⟨hs, hk⟩
    · exact hp (hs.trans h1) (hk.trans h2)
    · exact hp hs hk

end

/-! ## The dolly drag to radius 0, evaluated -/

/-- After the dolly drag that asks for the scale factor 0, `update()` holds radius 0 and
phi `PI / 2` and puts the camera on the target. -/
theorem zeroDolly_first_update :
    (update axisThree zeroDolly).1._spherical.radius = 0 ∧
      (update axisThree zeroDolly).1._spherical.phi = doublePI / 2 ∧
      (update axisThree zeroDolly).1.object.position = ⟨0, 0, 0⟩ := by
  refine ⟨?_, ?_, ?_⟩
  · simp [zeroDolly, controlsUndamped, controls10, camera10, dollyBranch, _onMouseDown,
      Vector2.subVectors, update, updateSpherical, rawSpherical, makeSafe, mathMin,
      axisThree, Vector3.sub]
    norm_num
  · simp [zeroDolly, controlsUndamped, controls10, camera10, dollyBranch, _onMouseDown,
      Vector2.subVectors, update, updateSpherical, rawSpherical, makeSafe, mathMin,
      axisThree, Vector3.sub]
    norm_num [doublePI]
  · simp [zeroDolly, controlsUndamped, controls10, camera10, dollyBranch, _onMouseDown,
      Vector2.subVectors, update, updateSpherical, rawSpherical, makeSafe, mathMin,
      axisThree, Vector3.sub, Vector3.add]
    norm_num [doublePI]

/-- A further `update()` derives phi 0 from the camera on the target and guards it to
`EPS`. -/
theorem zeroDolly_second_update_phi :
    (update axisThree (update axisThree zeroDolly).1).1._spherical.phi = axisThree.EPS := by
  have hraw : rawSpherical axisThree (update axisThree zeroDolly).1 = ⟨0, 0, 0⟩ := by
    unfold rawSpherical
    rw [zeroDolly_first_update.2.2]
    simp [zeroDolly, controlsUndamped, controls10, dollyBranch, _onMouseDown, update,
      axisThree, Vector3.sub]
  rw [update_spherical, updateSpherical_phi, hraw]
  simp [zeroDolly, controlsUndamped, controls10, dollyBranch, _onMouseDown, update]
  norm_num [axisThree, doublePI]

/-- With `minDistance = -5`, after the dolly drag that asks for the scale factor -1,
`update()` holds radius -5 and puts the camera at (0, 0, -5). -/
theorem negativeFloorDolly_first_update :
    (update axisThree negativeFloorDolly).1._spherical.radius = -5 ∧
      (update axisThree negativeFloorDolly).1.object.position = ⟨0, 0, -5⟩ := by
  refine ⟨?_, ?_⟩
  · simp [negativeFloorDolly, controlsUndamped, controls10, camera10, dollyBranch,
      _onMouseDown, Vector2.subVectors, update, updateSpherical, rawSpherical, makeSafe,
      mathMin, axisThree, Vector3.sub]
    norm_num
  · simp [negativeFloorDolly, controlsUndamped, controls10, camera10, dollyBranch,
      _onMouseDown, Vector2.subVectors, update, updateSpherical, rawSpherical, makeSafe,
      mathMin, axisThree, Vector3.sub, Vector3.add]
    norm_num [doublePI]

/-- A further `update()` derives radius 5 from the camera at (0, 0, -5) and holds it. -/
theorem negativeFloorDolly_second_update_radius :
    (update axisThree (update axisThree negativeFloorDolly).1).1._spherical.radius = 5 := by
  have hraw : (rawSpherical axisThree (update axisThree negativeFloorDolly).1).radius = 5 := by
    unfold rawSpherical
    rw [negativeFloorDolly_first_update.2]
    simp [negativeFloorDolly, controlsUndamped, controls10, dollyBranch, _onMouseDown,
      update, axisThree, Vector3.sub]
  rw [update_spherical, updateSpherical_radius, hraw]
  simp [negativeFloorDolly, controlsUndamped, controls10, dollyBranch, _onMouseDown, update,
    mathMin]

/-! ## The conversions over the reals -/

theorem realThree_length (s : Spherical ℝ) (hr : 0 < s.radius) :
    Real.sqrt
      (Real.sin s.phi * s.radius * Real.sin s.theta *
          (Real.sin s.phi * s.radius * Real.sin s.theta) +
        Real.cos s.phi * s.radius * (Real.cos s.phi * s.radius) +
        Real.sin s.phi * s.radius * Real.cos s.theta *
          (Real.sin s.phi * s.radius * Real.cos s.theta)) = s.radius := by
  have h1 := Real.sin_sq_add_cos_sq s.phi
  have h2 := Real.sin_sq_add_cos_sq s.theta
  have : Real.sin s.phi * s.radius * Real.sin s.theta *
          (Real.sin s.phi * s.radius * Real.sin s.theta) +
        Real.cos s.phi * s.radius * (Real.cos s.phi * s.radius) +
        Real.sin s.phi * s.radius * Real.cos s.theta *
          (Real.sin s.phi * s.radius * Real.cos s.theta) = s.radius ^ 2 := by
    linear_combination (s.radius ^ 2 * Real.sin s.phi ^ 2) * h2 + s.radius ^ 2 * h1
  rw [this, Real.sqrt_sq hr.le]

/-- The angle that `setFromVector3` derives for an offset off the y axis has the sine and
cosine of the azimuth the offset was built from. -/
theorem realThree_azimuth (k θ : ℝ) (hk : 0 < k) :
    Real.sin (Complex.arg ⟨k * Real.cos θ, k * Real.sin θ⟩) = Real.sin θ ∧
      Real.cos (Complex.arg ⟨k * Real.cos θ, k * Real.sin θ⟩) = Real.cos θ := by
  have habs : Complex.abs ⟨k * Real.cos θ, k * Real.sin θ⟩ = k := by
    rw [Complex.abs_apply, Complex.normSq_mk]
    have : k * Real.cos θ * (k * Real.cos θ) + k * Real.sin θ * (k * Real.sin θ) = k ^ 2 := by
      linear_combination k ^ 2 * Real.sin_sq_add_cos_sq θ
    rw [this, Real.sqrt_sq hk.le]
  have hne : (⟨k * Real.cos θ, k * Real.sin θ⟩ : ℂ) ≠ 0 := by
    intro h
    have := congrArg Complex.abs h
    rw [habs, map_zero] at this
    exact hk.ne' this
  constructor
  · rw [Complex.sin_arg, habs]
    show k * Real.sin θ / k = Real.sin θ
    field_simp
  · rw [Complex.cos_arg hne, habs]
    show k * Real.cos θ / k = Real.cos θ
    field_simp

/-- Over the reals the conversions round-trip: from the offset of a spherical position
with positive radius and phi strictly between the poles, `setFromVector3` derives the same
radius and phi, and an azimuth that gives the same offset again. -/
theorem realThree_round_trip (s : Spherical ℝ) (hr : 0 < s.radius) (h0 : 0 < s.phi)
    (hpi : s.phi < realThree.PI) :
    (realThree.setFromVector3 (realThree.setFromSpherical s)).radius = s.radius ∧
      (realThree.setFromVector3 (realThree.setFromSpherical s)).phi = s.phi ∧
      realThree.setFromSpherical (realThree.setFromVector3 (realThree.setFromSpherical s)) =
        realThree.setFromSpherical s := by
  have hlen := realThree_length s hr
  have hk : 0 < s.radius * Real.sin s.phi :=
    mul_pos hr (Real.sin_pos_of_pos_of_lt_pi h0 hpi)
  have haz := realThree_azimuth (s.radius * Real.sin s.phi) s.theta hk
  have hphi : Real.arccos (max (-1) (min 1 (Real.cos s.phi * s.radius / s.radius))) =
      s.phi := by
    rw [mul_div_assoc, div_self hr.ne', mul_one, min_eq_right (Real.cos_le_one _),
      max_eq_right (Real.neg_one_le_cos _), Real.arccos_cos h0.le hpi.le]
  have hz : Real.sin s.phi * s.radius * Real.cos s.theta =
      s.radius * Real.sin s.phi * Real.cos s.theta := by ring
  have hx : Real.sin s.phi * s.radius * Real.sin s.theta =
      s.radius * Real.sin s.phi * Real.sin s.theta := by ring
  simp only [realThree, hlen, hr.ne', if_false, hphi]
  refine ⟨trivial, trivial, ?_⟩
  rw [hz, hx, haz.1, haz.2, hx, hz]

theorem realThree_zero_radius (s : Spherical ℝ) (h : s.radius = 0) :
    realThree.setFromSpherical s = ⟨0, 0, 0⟩ := by
  simp [realThree, h]

theorem realThree_origin : (realThree.setFromVector3 ⟨0, 0, 0⟩).radius = 0 := by
  simp [realThree]

theorem realThree_eps : 0 < realThree.EPS ∧ realThree.EPS ≤ realThree.PI - realThree.EPS := by
  have := Real.pi_gt_three
  constructor
  · norm_num [realThree]
  · show (0.000001 : ℝ) ≤ Real.pi - 0.000001
    norm_num
    linarith

section
variable [LinearOrderedField α]

theorem Vector3.add_sub_cancel (a b : Vector3 α) : (a.add b).sub a = b := by
  cases a
  cases b
  simp [Vector3.add, Vector3.sub]

end

/-! ## The claims -/

section
variable [LinearOrderedField α]

/-- C2 (polar clamp), as the code has it. When `0 < EPS ≤ PI - EPS`, an `update()` that
adds a finite pending delta-phi to the phi it derives from the camera, the sum being a
finite number, holds a phi in `[EPS, PI - EPS]`, so neither 0 nor `PI`; that phi lies in
`[minPolarAngle, maxPolarAngle]` as well when these bounds are in order,
`EPS ≤ maxPolarAngle` and `minPolarAngle ≤ PI - EPS`. The controller is any, so this is
every `update()` that the constructor and the handlers run. -/
theorem C2_phi_safe_and_within_polar_bounds (T : Three α) (c : OrbitControls α)
    (hE : 0 < T.EPS) (hP : T.EPS ≤ T.PI - T.EPS)
    (_hfinite : |(rawSpherical T c).phi + c._sphericalDelta.phi| ≤ MAX_VALUE) :
    T.EPS ≤ (update T c).1._spherical.phi ∧
      (update T c).1._spherical.phi ≤ T.PI - T.EPS ∧
      (update T c).1._spherical.phi ≠ 0 ∧
      (update T c).1._spherical.phi ≠ T.PI ∧
      (c.minPolarAngle ≤ c.maxPolarAngle → T.EPS ≤ c.maxPolarAngle →
        c.minPolarAngle ≤ T.PI - T.EPS →
        c.minPolarAngle ≤ (update T c).1._spherical.phi ∧
          (update T c).1._spherical.phi ≤ c.maxPolarAngle) := by
  have safe := updateSpherical_phi_safe T c hP
  refine ⟨safe.1, safe.2, ?_, ?_, fun h1 h2 h3 => updateSpherical_phi_polar T c h1 h2 h3⟩
  · exact ne_of_gt (lt_of_lt_of_le hE safe.1)
  · exact ne_of_lt (lt_of_le_of_lt safe.2 (sub_lt_self _ hE))

/-- The imported module over `ℚ` and the default controller in a rotate drag from
(100, 100) to (100, 50) in a viewport 500 high: the sum is `PI / 2 + PI / 5`, a finite
number, and the phi that `update()` holds lies in `[EPS, PI - EPS]`. -/
theorem C2_phi_safe_and_within_polar_bounds_witness :
    (0 : ℚ) < axisThree.EPS ∧ axisThree.EPS ≤ axisThree.PI - axisThree.EPS ∧
      (rawSpherical axisThree rotateMoved).phi + rotateMoved._sphericalDelta.phi =
        doublePI / 2 + doublePI / 5 ∧
      axisThree.EPS ≤ (update axisThree rotateMoved).1._spherical.phi ∧
      (update axisThree rotateMoved).1._spherical.phi ≤ axisThree.PI - axisThree.EPS := by
  have hE : (0 : ℚ) < axisThree.EPS := by norm_num [axisThree, doublePI]
  have hP : axisThree.EPS ≤ axisThree.PI - axisThree.EPS := by
    norm_num [axisThree, doublePI]
  have hsum : (rawSpherical axisThree rotateMoved).phi + rotateMoved._sphericalDelta.phi =
      doublePI / 2 + doublePI / 5 := by
    simp [rawSpherical, rotateMoved, rotateBranch, rotatePress, _onMouseDown, controls10,
      camera10, axisThree, Vector2.subVectors, Vector3.sub]
    ring
  have h := C2_phi_safe_and_within_polar_bounds axisThree rotateMoved hE hP (by
    rw [hsum]
    norm_num [MAX_VALUE, doublePI, abs_le])
  exact ⟨hE, hP, hsum, h.1, h.2.1⟩

/-- With both polar bounds set to 0 on the default controller, the rotate drag from
(100, 100) to (100, 50) leaves phi at `EPS`, above `maxPolarAngle`. -/
theorem C2_phi_exceeds_max_polar_angle :
    (0 : ℚ) ≤ ({ controls10 with minPolarAngle := 0, maxPolarAngle := 0 }).minPolarAngle ∧
      ({ controls10 with minPolarAngle := 0, maxPolarAngle := 0 }).minPolarAngle ≤
        ({ controls10 with minPolarAngle := 0, maxPolarAngle := 0 }).maxPolarAngle ∧
      ({ controls10 with minPolarAngle := 0, maxPolarAngle := 0 }).maxPolarAngle ≤
        axisThree.PI ∧
      (run axisThree (update axisThree
          { controls10 with minPolarAngle := 0, maxPolarAngle := 0 }).1
        [.mousedown ⟨0, 100, 100⟩, .mousemove ⟨0, 100, 50⟩ 500])._spherical.phi
        = axisThree.EPS ∧
      ({ controls10 with minPolarAngle := 0, maxPolarAngle := 0 }).maxPolarAngle <
        axisThree.EPS := by
  refine ⟨le_refl _, le_refl _, ?_, ?_, ?_⟩
  · norm_num [axisThree, doublePI]
  · simp [run, dispatch, _onMouseDown, _onMouseMove, _STATE, rotateBranch, update,
      updateSpherical, makeSafe]
    norm_num [axisThree, doublePI]
  · norm_num [axisThree, doublePI]

/-- C3 (return value and change notification), at the default controller of a camera at
(0, 0, 10): `update()` returns true and hands no event to `dispatchEvent`, so the list of
dispatched events is as empty after the call as before. -/
theorem C3_update_true_without_change_event :
    (update axisThree controls10).2 = true ∧
      controls10.dispatched = [] ∧
      (update axisThree controls10).1.dispatched = [] :=
  ⟨rfl, rfl, rfl⟩

/-- C4 (second call reports no change), as the code has it: a second `update()` with no
input in between returns true, as does the first. -/
theorem C4_second_update_returns_true (T : Three α) (c : OrbitControls α) :
    (update T c).2 = true ∧ (update T (update T c).1).2 = true :=
  ⟨rfl, rfl⟩

/-- With damping switched off on the default controller, the second of two `update()`
calls with no input in between returns true, not false. -/
theorem C4_second_update_not_false :
    controlsUndamped.enableDamping = false ∧
      (update axisThree (update axisThree controlsUndamped).1).2 = true :=
  ⟨rfl, rfl⟩

/-- C5 (pose idempotence), as the code has it. Let the library conversions be exact: the
two quaternions of the controller undo each other, a spherical position with positive
radius and phi strictly between the poles comes back from its offset with the same radius
and phi and an azimuth that gives the same offset, and radius 0 gives the zero offset and
is derived from it. Then, with `0 < EPS ≤ PI - EPS` and `minDistance ≥ 0`, a second
`update()` with no input in between leaves the camera position and the radius as the first
call left them, and phi as well when the radius is positive; theta becomes the azimuth
derived from the position, which need not be the theta the first call held. -/
theorem C5_second_update_keeps_position (T : Three α) (c : OrbitControls α)
    (hE : 0 < T.EPS) (hP : T.EPS ≤ T.PI - T.EPS) (hmin : 0 ≤ c.minDistance)
    (hquat : ∀ v : Vector3 α,
      T.applyQuaternion (T.applyQuaternion v c._quatInverse) c._quat = v)
    (hround : ∀ s : Spherical α, 0 < s.radius → 0 < s.phi → s.phi < T.PI →
      (T.setFromVector3 (T.setFromSpherical s)).radius = s.radius ∧
        (T.setFromVector3 (T.setFromSpherical s)).phi = s.phi ∧
        T.setFromSpherical (T.setFromVector3 (T.setFromSpherical s)) =
          T.setFromSpherical s)
    (hzero : ∀ s : Spherical α, s.radius = 0 → T.setFromSpherical s = ⟨0, 0, 0⟩)
    (horigin : (T.setFromVector3 ⟨0, 0, 0⟩).radius = 0) :
    (update T (update T c).1).1.object.position = (update T c).1.object.position ∧
      (update T (update T c).1).1._spherical.radius = (update T c).1._spherical.radius ∧
      (0 < (update T c).1._spherical.radius →
        (update T (update T c).1).1._spherical.phi = (update T c).1._spherical.phi) ∧
      (update T (update T c).1).1._spherical.theta =
        (rawSpherical T (update T c).1).theta := by
  -- the second call starts from the offset that the first call built
  have hraw : rawSpherical T (update T c).1 =
      T.setFromVector3 (T.setFromSpherical (updateSpherical T c)) := by
    show T.setFromVector3 (T.applyQuaternion
      ((c.target.add (T.applyQuaternion (T.setFromSpherical (updateSpherical T c))
        c._quatInverse)).sub c.target) c._quat) = _
    rw [Vector3.add_sub_cancel, hquat]
  have hrad : (updateSpherical T (update T c).1).radius =
      max c.minDistance (mathMin c.maxDistance
        (T.setFromVector3 (T.setFromSpherical (updateSpherical T c))).radius) := by
    rw [updateSpherical_radius, hraw]
    show max c.minDistance (mathMin c.maxDistance (_ * 1)) = _
    rw [mul_one]
  have hphi : (updateSpherical T (update T c).1).phi =
      max T.EPS (min (T.PI - T.EPS) (max c.minPolarAngle (min c.maxPolarAngle
        (T.setFromVector3 (T.setFromSpherical (updateSpherical T c))).phi))) := by
    rw [updateSpherical_phi, hraw]
    show max T.EPS (min (T.PI - T.EPS) (max c.minPolarAngle (min c.maxPolarAngle
      (_ + 0)))) = _
    rw [add_zero]
  have htheta : (updateSpherical T (update T c).1).theta =
      (T.setFromVector3 (T.setFromSpherical (updateSpherical T c))).theta := by
    rw [updateSpherical_theta, hraw]
    show _ + 0 = _
    rw [add_zero]
  have hpos : ∀ s' : Spherical α,
      T.setFromSpherical s' = T.setFromSpherical (updateSpherical T c) →
      updateSpherical T (update T c).1 = s' →
      (update T (update T c).1).1.object.position = (update T c).1.object.position := by
    intro s' hs' hu
    show c.target.add (T.applyQuaternion
        (T.setFromSpherical (updateSpherical T (update T c).1)) c._quatInverse) =
      c.target.add (T.applyQuaternion
        (T.setFromSpherical (updateSpherical T c)) c._quatInverse)
    rw [hu, hs']
  have hsafe := updateSpherical_phi_safe T c hP
  have hge : 0 ≤ (updateSpherical T c).radius :=
    hmin.trans (updateSpherical_radius_ge T c)
  have htheta' : (update T (update T c).1).1._spherical.theta =
      (rawSpherical T (update T c).1).theta := by
    rw [update_spherical, htheta, hraw]
  rcases hge.eq_or_lt with h0 | hpos1
  · -- radius 0: the camera sits on the target after either call
    have hr2 : (updateSpherical T (update T c).1).radius = 0 := by
      rw [hrad, hzero _ h0.symm, horigin, h0]
      conv_rhs => rw [updateSpherical_radius]
      conv_lhs => rw [updateSpherical_radius]
      exact distance_clamp_twice _ _ _
    refine ⟨hpos _ ?_ rfl, ?_, ?_, htheta'⟩
    · rw [hzero _ hr2, hzero _ h0.symm]
    · rw [update_spherical, update_spherical, hr2, ← h0]
    · intro h
      rw [update_spherical, ← h0] at h
      exact absurd h (lt_irrefl _)
  · -- positive radius: the library derives the radius and phi of the first call again
    obtain ⟨hr, hp, hc⟩ := hround (updateSpherical T c) hpos1
      (lt_of_lt_of_le hE hsafe.1) (lt_of_le_of_lt hsafe.2 (sub_lt_self _ hE))
    have hr2 : (updateSpherical T (update T c).1).radius = (updateSpherical T c).radius := by
      rw [hrad, hr]
      conv_rhs => rw [updateSpherical_radius]
      conv_lhs => rw [updateSpherical_radius]
      exact distance_clamp_twice _ _ _
    have hp2 : (updateSpherical T (update T c).1).phi = (updateSpherical T c).phi := by
      rw [hphi, hp]
      conv_rhs => rw [updateSpherical_phi]
      conv_lhs => rw [updateSpherical_phi]
      exact clamp_clamp_twice _ _ _ _ _
    refine ⟨hpos (T.setFromVector3 (T.setFromSpherical (updateSpherical T c))) hc ?_,
      ?_, fun _ => ?_, htheta'⟩
    · cases hu : updateSpherical T (update T c).1
      cases hv : T.setFromVector3 (T.setFromSpherical (updateSpherical T c))
      rw [hu] at hr2 hp2 htheta
      rw [hv] at hr hp htheta
      simp only at hr2 hp2 htheta hr hp
      rw [hr2, hp2, htheta, hr, hp]
    · rw [update_spherical, update_spherical, hr2]
    · rw [update_spherical, update_spherical, hp2]

/-- With the real-number conversions, after the dolly drag that asks for the scale factor
0 the first `update()` holds radius 0 and the second leaves the camera where the first
put it; so does the second `update()` after the full-turn rotate drag. -/
theorem C5_second_update_keeps_position_witness :
    (update realThree realDollyToZero).1._spherical.radius = 0 ∧
      (update realThree (update realThree realDollyToZero).1).1.object.position =
        (update realThree realDollyToZero).1.object.position ∧
      (update realThree (update realThree realFullTurn).1).1.object.position =
        (update realThree realFullTurn).1.object.position ∧
      (update realThree (update realThree realFullTurn).1).1._spherical.radius =
        (update realThree realFullTurn).1._spherical.radius := by
  have hq1 : ∀ v : Vector3 ℝ, realThree.applyQuaternion
      (realThree.applyQuaternion v realDollyToZero._quatInverse) realDollyToZero._quat = v := by
    intro v
    simp [realDollyToZero, dollyBranch, _onMouseDown, realControls10, constructor, update,
      realThree]
  have hq2 : ∀ v : Vector3 ℝ, realThree.applyQuaternion
      (realThree.applyQuaternion v realFullTurn._quatInverse) realFullTurn._quat = v := by
    intro v
    simp [realFullTurn, rotateBranch, _onMouseDown, realControls10, constructor, update,
      realThree]
  have hm1 : 0 ≤ realDollyToZero.minDistance := by
    simp [realDollyToZero, dollyBranch, _onMouseDown, realControls10, constructor, update]
  have hm2 : 0 ≤ realFullTurn.minDistance := by
    simp [realFullTurn, rotateBranch, _onMouseDown, realControls10, constructor, update]
  have zero := C5_second_update_keeps_position realThree realDollyToZero realThree_eps.1 realThree_eps.2 hm1 hq1
    realThree_round_trip realThree_zero_radius realThree_origin
  have turn := C5_second_update_keeps_position realThree realFullTurn realThree_eps.1 realThree_eps.2 hm2 hq2
    realThree_round_trip realThree_zero_radius realThree_origin
  refine ⟨?_, zero.1, turn.1, turn.2.1⟩
  rw [update_spherical, updateSpherical_radius]
  have hs : realDollyToZero._scale = 0 := by
    simp [realDollyToZero, dollyBranch, _onMouseDown, realControls10, constructor, update,
      Vector2.subVectors]
    norm_num
  have hd : realDollyToZero.minDistance = 0 := by
    simp [realDollyToZero, dollyBranch, _onMouseDown, realControls10, constructor, update]
  have hx : realDollyToZero.maxDistance = none := by
    simp [realDollyToZero, dollyBranch, _onMouseDown, realControls10, constructor, update]
  rw [hs, hd, hx, mul_zero]
  simp [mathMin]

/-- With damping switched off, the full-turn rotate drag makes the first `update()` hold
theta `2 * PI`; a second `update()` with no input in between holds theta 0. After the
dolly drag that asks for the scale factor 0 the first `update()` holds radius 0 and phi
`PI / 2`; a second `update()` holds phi `EPS`. And with `minDistance = -5`, after the dolly
drag that asks for the scale factor -1 the first `update()` holds radius -5; a second
`update()` holds radius 5. -/
theorem C5_second_update_changes_theta :
    fullTurnDrag.enableDamping = false ∧
      (update axisThree fullTurnDrag).1._spherical.theta = 2 * axisThree.PI ∧
      (update axisThree (update axisThree fullTurnDrag).1).1._spherical.theta = 0 ∧
      (update axisThree (update axisThree fullTurnDrag).1).1._spherical.theta ≠
        (update axisThree fullTurnDrag).1._spherical.theta ∧
      zeroDolly.enableDamping = false ∧
      (update axisThree zeroDolly).1._spherical.radius = 0 ∧
      (update axisThree zeroDolly).1._spherical.phi = doublePI / 2 ∧
      (update axisThree (update axisThree zeroDolly).1).1._spherical.phi = axisThree.EPS ∧
      negativeFloorDolly.minDistance = -5 ∧
      (update axisThree negativeFloorDolly).1._spherical.radius = -5 ∧
      (update axisThree (update axisThree negativeFloorDolly).1).1._spherical.radius = 5 := by
  have h1 : (update axisThree fullTurnDrag).1._spherical.theta = 2 * axisThree.PI := by
    simp [fullTurnDrag, controlsUndamped, controls10, constructor, camera10, rotateBranch,
      _onMouseDown, Vector2.subVectors, update, updateSpherical, rawSpherical, makeSafe,
      mathMin, axisThree, Vector3.sub, Vector3.add]
    norm_num [doublePI]
  have h2 : (update axisThree (update axisThree fullTurnDrag).1).1._spherical.theta = 0 := by
    simp [fullTurnDrag, controlsUndamped, controls10, constructor, camera10, rotateBranch,
      _onMouseDown, Vector2.subVectors, update, updateSpherical, rawSpherical, makeSafe,
      mathMin, axisThree, Vector3.sub, Vector3.add]
    norm_num [doublePI]
  refine ⟨rfl, h1, h2, ?_, rfl, zeroDolly_first_update.1, zeroDolly_first_update.2.1,
    zeroDolly_second_update_phi, rfl, negativeFloorDolly_first_update.1,
    negativeFloorDolly_second_update_radius⟩
  rw [h1, h2]
  norm_num [axisThree, doublePI]

/-- C6 (wheel zoom). In a controller whose pending scale is 1, as `update()` leaves it,
and in any interaction state, a wheel event makes the radius held after its `update()`
equal to 1.1 times (deltaY > 0) or 0.9 times (deltaY ≤ 0) the radius of the camera before,
provided that product lies between the distance bounds; the camera is placed at that
radius from the target. -/
theorem C6_wheel_scales_radius (T : Three α) (c : OrbitControls α) (event : WheelEvent α)
    (hscale : c._scale = 1)
    (hlo : c.minDistance ≤
      (if event.deltaY > 0 then 1.1 else 0.9) * (rawSpherical T c).radius)
    (hhi : leInf ((if event.deltaY > 0 then 1.1 else 0.9) * (rawSpherical T c).radius)
      c.maxDistance) :
    (_onMouseWheel T c event)._spherical.radius =
        (if event.deltaY > 0 then 1.1 else 0.9) * (rawSpherical T c).radius ∧
      (_onMouseWheel T c event).object.position =
        c.target.add (T.applyQuaternion
          (T.setFromSpherical (_onMouseWheel T c event)._spherical) c._quatInverse) := by
  refine ⟨?_, rfl⟩
  show max c.minDistance (mathMin c.maxDistance ((rawSpherical T c).radius *
    (c._scale * (if event.deltaY > 0 then 1.1 else 0.9)))) = _
  rw [hscale, one_mul, mul_comm]
  cases hm : c.maxDistance with
  | none => exact max_eq_right hlo
  | some m =>
    rw [hm] at hhi
    show max c.minDistance (min m _) = _
    rw [min_eq_right hhi, max_eq_right hlo]

/-- The spec's scenario: camera at (0, 0, 10), target (0, 0, 0), up (0, 1, 0), default
bounds, wheel event with deltaY = +100: the radius becomes 1.1 * 10 = 11 and the camera
moves to (0, 0, 11); with deltaY = -100 the radius becomes 9. -/
theorem C6_wheel_scales_radius_witness :
    controls10._scale = 1 ∧
      (_onMouseWheel axisThree controls10 ⟨100⟩)._spherical.radius = 11 ∧
      (_onMouseWheel axisThree controls10 ⟨100⟩).object.position = ⟨0, 0, 11⟩ ∧
      (_onMouseWheel axisThree controls10 ⟨-100⟩)._spherical.radius = 9 := by
  have hraw : (rawSpherical axisThree controls10).radius = 10 := by
    simp [rawSpherical, controls10, camera10, axisThree, Vector3.sub]
  have up := C6_wheel_scales_radius axisThree controls10 ⟨100⟩ rfl
    (by rw [hraw]; norm_num [controls10]) trivial
  have down := C6_wheel_scales_radius axisThree controls10 ⟨-100⟩ rfl
    (by rw [hraw]; norm_num [controls10]) trivial
  refine ⟨rfl, ?_, ?_, ?_⟩
  · rw [up.1, hraw]; norm_num
  · rw [up.2]
    simp [_onMouseWheel, wheelBranch, update, updateSpherical, rawSpherical, makeSafe,
      mathMin, axisThree, controls10, camera10, Vector3.sub, Vector3.add]
    norm_num [doublePI]
  · rw [down.1, hraw]; norm_num

/-- C7 (rotate translation), as the code has it. In the Rotate state, for a viewport
height above 0, a pointer move to (x, y) changes the pending delta-theta by
`-2 * PI * (x - rx) / h` and the pending delta-phi by `-2 * PI * (y - ry) / h`, where
(rx, ry) is the rotate reference, whatever `rotateSpeed` is; it sets the rotate reference
to (x, y) and then calls `update()`, which is all the handler does. -/
theorem C7_rotate_move_deltas (T : Three α) (c : OrbitControls α) (event : MouseEvent α)
    (innerHeight : α) (hstate : c._state = some _STATE.ROTATE) (_hh : 0 < innerHeight) :
    (rotateBranch T c event innerHeight)._sphericalDelta.theta =
        c._sphericalDelta.theta -
          2 * T.PI * (event.clientX - c._rotateStart.x) / innerHeight ∧
      (rotateBranch T c event innerHeight)._sphericalDelta.phi =
        c._sphericalDelta.phi -
          2 * T.PI * (event.clientY - c._rotateStart.y) / innerHeight ∧
      (rotateBranch T c event innerHeight)._rotateStart =
        ⟨event.clientX, event.clientY⟩ ∧
      _onMouseMove T c event innerHeight =
        (update T (rotateBranch T c event innerHeight)).1 ∧
      (_onMouseMove T c event innerHeight)._rotateStart =
        ⟨event.clientX, event.clientY⟩ := by
  have hmove : _onMouseMove T c event innerHeight =
      (update T (rotateBranch T c event innerHeight)).1 := by
    unfold _onMouseMove
    simp only [if_pos hstate]
    rw [if_neg]
    rw [update_state]
    show ¬ c._state = some _STATE.DOLLY
    rw [hstate]
    decide
  refine ⟨rfl, rfl, rfl, hmove, ?_⟩
  rw [hmove]
  rfl

/-- The spec's scenario: left button down at (100, 100), move to (100, 50), viewport
height 500: the pending delta-phi becomes `-2 * PI * (50 - 100) / 500 = PI / 5`, about
0.628. -/
theorem C7_rotate_move_deltas_witness :
    rotatePress._state = some _STATE.ROTATE ∧ (0 : ℚ) < 500 ∧
      (rotateBranch axisThree rotatePress ⟨0, 100, 50⟩ 500)._sphericalDelta.phi =
        doublePI / 5 ∧
      (rotateBranch axisThree rotatePress ⟨0, 100, 50⟩ 500)._sphericalDelta.theta = 0 :=
  have h := C7_rotate_move_deltas axisThree rotatePress ⟨0, 100, 50⟩ 500 rfl (by norm_num)
  ⟨rfl, by norm_num,
    h.2.1.trans (by
      simp [rotatePress, _onMouseDown, controls10, axisThree]
      ring),
    h.1.trans (by simp [rotatePress, _onMouseDown, controls10, axisThree])⟩

/-- With `rotateSpeed = 2`, after the left button goes down at (100, 100), a move to
(100, 50) in a viewport 500 high changes the pending delta-phi by `PI / 5`, not by the
`-2 * PI * (50 - 100) / 500 * rotateSpeed = 2 * PI / 5` of the claim. -/
theorem C7_rotate_move_not_scaled_by_rotateSpeed :
    rotatePressFast._state = some _STATE.ROTATE ∧
      rotatePressFast.rotateSpeed = 2 ∧
      (rotateBranch axisThree rotatePressFast ⟨0, 100, 50⟩ 500)._sphericalDelta.phi -
          rotatePressFast._sphericalDelta.phi = doublePI / 5 ∧
      -2 * axisThree.PI * (50 - rotatePressFast._rotateStart.y) / 500 *
          rotatePressFast.rotateSpeed = 2 * doublePI / 5 ∧
      doublePI / 5 ≠ 2 * doublePI / 5 := by
  refine ⟨rfl, rfl, ?_, ?_, ?_⟩
  · simp [rotateBranch, rotatePressFast, _onMouseDown, controls10, axisThree,
      Vector2.subVectors]
    ring
  · simp [rotatePressFast, _onMouseDown, controls10, axisThree]
    ring
  · norm_num [doublePI]

/-- C8 (damping), as the code has it. Whatever `enableDamping` and `dampingFactor` are,
one call of `update()` adds the whole pending delta-theta to theta and the whole pending
delta-phi to phi (which is then clamped), and leaves both pending deltas 0; the two
damping settings change nothing of the spherical position, the pending deltas or the
camera position that the call leaves. -/
theorem C8_update_consumes_pending_deltas (T : Three α) (c : OrbitControls α) :
    (update T c).1._spherical.theta = (rawSpherical T c).theta + c._sphericalDelta.theta ∧
      (update T c).1._spherical.phi =
        max T.EPS (min (T.PI - T.EPS) (max c.minPolarAngle (min c.maxPolarAngle
          ((rawSpherical T c).phi + c._sphericalDelta.phi)))) ∧
      (update T c).1._sphericalDelta.theta = 0 ∧
      (update T c).1._sphericalDelta.phi = 0 ∧
      ∀ (b : Bool) (d : α),
        (update T { c with enableDamping := b, dampingFactor := d }).1._spherical =
            (update T c).1._spherical ∧
          (update T { c with enableDamping := b, dampingFactor := d }).1._sphericalDelta =
            (update T c).1._sphericalDelta ∧
          (update T { c with enableDamping := b, dampingFactor := d }).1.object =
            (update T c).1.object :=
  ⟨rfl, rfl, rfl, rfl, fun _ _ => ⟨rfl, rfl, rfl⟩⟩

/-- With damping enabled, `dampingFactor = 0.06` and a pending delta-theta of 1, one
`update()` leaves the pending delta-theta 0, not `(1 - 0.06) * 1 = 0.94`, and changes
theta by 1, not by `0.06 * 1`. -/
theorem C8_update_does_not_damp :
    impulse.enableDamping = true ∧ impulse.dampingFactor = 0.06 ∧
      impulse._sphericalDelta.theta = 1 ∧
      (update axisThree impulse).1._sphericalDelta.theta = 0 ∧
      (1 - impulse.dampingFactor) * impulse._sphericalDelta.theta = 0.94 ∧
      (update axisThree impulse).1._spherical.theta -
          (rawSpherical axisThree impulse).theta = 1 ∧
      impulse.dampingFactor * impulse._sphericalDelta.theta = 0.06 := by
  refine ⟨rfl, rfl, rfl, rfl, ?_, ?_, ?_⟩
  · norm_num [impulse, controls10]
  · exact thetaApplied_eq axisThree impulse
  · norm_num [impulse, controls10]

/-- C9 (damping convergence). From a controller with a pending delta-theta of 1, whatever
its damping settings, and with no further input, after every number n ≥ 1 of `update()`
calls the pending delta-theta is below 0.000001 in absolute value and the theta changes
applied by those calls sum to 1; so some n ≤ 100 does. -/
theorem C9_impulse_consumed_within_100_calls (T : Three α) (c : OrbitControls α)
    (himp : c._sphericalDelta.theta = 1) :
    (∃ n : Nat, n ≤ 100 ∧ |(updateN T n c)._sphericalDelta.theta| < 0.000001 ∧
        appliedThetaSum T n c = 1) ∧
      ∀ n : Nat, 1 ≤ n →
        |(updateN T n c)._sphericalDelta.theta| < 0.000001 ∧ appliedThetaSum T n c = 1 := by
  have all : ∀ n : Nat, 1 ≤ n →
      |(updateN T n c)._sphericalDelta.theta| < 0.000001 ∧ appliedThetaSum T n c = 1 := by
    intro n hn
    obtain ⟨m, rfl⟩ : ∃ m, n = m + 1 := ⟨n - 1, by omega⟩
    constructor
    · show |(updateN T m (update T c).1)._sphericalDelta.theta| < 0.000001
      rw [updateN_pending_zero T m (update T c).1 rfl, abs_zero]
      norm_num
    · show thetaApplied T c + appliedThetaSum T m (update T c).1 = 1
      rw [thetaApplied_eq, himp, appliedThetaSum_pending_zero T m (update T c).1 rfl,
        add_zero]
  exact ⟨⟨1, by norm_num, all 1 le_rfl⟩, all⟩

/-- The default controller, with damping enabled and `dampingFactor = 0.06`, and a
pending delta-theta of 1: after one `update()` nothing is pending and the theta change
applied is 1. -/
theorem C9_impulse_consumed_within_100_calls_witness :
    impulse.enableDamping = true ∧ impulse.dampingFactor = 0.06 ∧
      impulse._sphericalDelta.theta = 1 ∧
      |(updateN axisThree 1 impulse)._sphericalDelta.theta| < 0.000001 ∧
      appliedThetaSum axisThree 1 impulse = 1 :=
  ⟨rfl, rfl, rfl,
    (C9_impulse_consumed_within_100_calls axisThree impulse rfl).2 1 le_rfl⟩

/-- C10 (radius floor), as the code has it. An `update()` whose scaled radius, the radius
it derives from the camera times the pending scale, is a finite number holds a radius of
at least `minDistance`, from which it rebuilds the camera offset; so that radius is
strictly positive when `minDistance` is. There is no other floor. The controller is any,
so this is every `update()` that the constructor and the handlers run. -/
theorem C10_radius_at_least_minDistance (T : Three α) (c : OrbitControls α)
    (_hfinite : |(rawSpherical T c).radius * c._scale| ≤ MAX_VALUE) :
    c.minDistance ≤ (update T c).1._spherical.radius ∧
      (0 < c.minDistance → 0 < (update T c).1._spherical.radius) :=
  ⟨updateSpherical_radius_ge T c,
    fun h => lt_of_lt_of_le h (updateSpherical_radius_ge T c)⟩

/-- The default controller with `minDistance` set to 5 and a wheel event with
deltaY = +100: the scaled radius is `10 * 1.1 = 11`, a finite number, and the radius that
`_onMouseWheel` leaves is at least 5, so positive. -/
theorem C10_radius_at_least_minDistance_witness :
    (rawSpherical axisThree wheelAtFloor).radius * wheelAtFloor._scale = 11 ∧
      (5 : ℚ) ≤
        (_onMouseWheel axisThree { controls10 with minDistance := 5 } ⟨100⟩)._spherical.radius ∧
      0 < (_onMouseWheel axisThree { controls10 with minDistance := 5 } ⟨100⟩)._spherical.radius
    := by
  have hsc : (rawSpherical axisThree wheelAtFloor).radius * wheelAtFloor._scale = 11 := by
    simp [rawSpherical, wheelAtFloor, wheelBranch, controls10, camera10, axisThree,
      Vector3.sub]
    norm_num
  have h := C10_radius_at_least_minDistance axisThree wheelAtFloor (by
    rw [hsc]
    norm_num [MAX_VALUE, abs_le])
  exact ⟨hsc, h.1, h.2 (by norm_num [wheelAtFloor, wheelBranch])⟩

/-- On the default controller (`minDistance = 0`) with the camera at (0, 0, 10), a dolly
drag from (0, 200) to (0, 0) gives the scale factor `1 + (0 - 200) * 0.005 = 0`: the
radius used by `update()` is 0 and the camera is put on the target. -/
theorem C10_dolly_drag_reaches_radius_zero :
    controls10.minDistance = 0 ∧
      (run axisThree controls10 dollyToZero)._spherical.radius = 0 ∧
      (run axisThree controls10 dollyToZero).object.position = controls10.target := by
  refine ⟨rfl, ?_, ?_⟩
  · simp [run, dollyToZero, dispatch, _onMouseDown, _onMouseMove, _STATE, dollyBranch,
      Vector2.subVectors, update, updateSpherical, rawSpherical, makeSafe, mathMin,
      axisThree, controls10, camera10, Vector3.sub, Vector3.add]
    norm_num [doublePI]
  · simp [run, dollyToZero, dispatch, _onMouseDown, _onMouseMove, _STATE, dollyBranch,
      Vector2.subVectors, update, updateSpherical, rawSpherical, makeSafe, mathMin,
      axisThree, controls10, camera10, Vector3.sub, Vector3.add]
    norm_num [doublePI]

/-- C11 (limit enforcement is idempotent). For every raw spherical position and every
bounds, misordered ones included, the limit step of `update()` applied to its own output
returns that output; and `update()` holds the output of that step. -/
theorem C11_enforceLimits_idempotent (T : Three α) (c : OrbitControls α)
    (s : Spherical α) :
    enforceLimits T c (enforceLimits T c s) = enforceLimits T c s ∧
      (update T c).1._spherical = enforceLimits T c
        ⟨(rawSpherical T c).radius * c._scale,
         (rawSpherical T c).phi + c._sphericalDelta.phi,
         (rawSpherical T c).theta + c._sphericalDelta.theta⟩ := by
  refine ⟨?_, rfl⟩
  have hr : (enforceLimits T c (enforceLimits T c s)).radius =
      (enforceLimits T c s).radius :=
    distance_clamp_twice c.minDistance c.maxDistance s.radius
  have hp : (enforceLimits T c (enforceLimits T c s)).phi = (enforceLimits T c s).phi :=
    clamp_clamp_twice c.minPolarAngle c.maxPolarAngle T.EPS (T.PI - T.EPS) s.phi
  have ht : (enforceLimits T c (enforceLimits T c s)).theta =
      (enforceLimits T c s).theta := rfl
  cases h1 : enforceLimits T c (enforceLimits T c s)
  cases h2 : enforceLimits T c s
  rw [h1, h2] at hr hp ht
  simp only at hr hp ht
  rw [hr, hp, ht]

/-- C12 (clamp ordering), as the code has it. The clamp that `update()` applies to phi
and to the radius is `max(lo, min(hi, x))`. It equals the `min(max(x, lo), hi)` of the
spec when `lo ≤ hi`; when `hi < lo` it is `lo`, while `min(max(x, lo), hi)` is `hi`. With
`maxDistance = Infinity` the radius clamp is `max(x, minDistance)`. -/
theorem C12_clamp_is_max_of_min (c : OrbitControls α) (x : α) :
    polarClamp c x = max c.minPolarAngle (min c.maxPolarAngle x) ∧
      (c.minPolarAngle ≤ c.maxPolarAngle →
        polarClamp c x = specClamp x c.minPolarAngle c.maxPolarAngle) ∧
      (c.maxPolarAngle < c.minPolarAngle →
        polarClamp c x = c.minPolarAngle ∧
          specClamp x c.minPolarAngle c.maxPolarAngle = c.maxPolarAngle) ∧
      (∀ hi : α, c.maxDistance = some hi →
        distanceClamp c x = max c.minDistance (min hi x) ∧
        (c.minDistance ≤ hi → distanceClamp c x = specClamp x c.minDistance hi) ∧
        (hi < c.minDistance →
          distanceClamp c x = c.minDistance ∧ specClamp x c.minDistance hi = hi)) ∧
      (c.maxDistance = none → distanceClamp c x = max x c.minDistance) := by
  have agree : ∀ lo hi : α, lo ≤ hi → max lo (min hi x) = specClamp x lo hi := by
    intro lo hi h
    unfold specClamp
    rw [max_comm x lo, max_min_distrib_left, max_eq_right h, min_comm]
  have differ : ∀ lo hi : α, hi < lo →
      max lo (min hi x) = lo ∧ specClamp x lo hi = hi := by
    intro lo hi h
    exact ⟨clamp_of_ge lo hi x h.le, min_eq_right (h.le.trans (le_max_right _ _))⟩
  refine ⟨rfl, agree _ _, differ _ _, ?_, ?_⟩
  · intro hi hm
    have hd : distanceClamp c x = max c.minDistance (min hi x) := by
      unfold distanceClamp
      rw [hm]
      rfl
    exact ⟨hd, fun h => hd.trans (agree _ _ h), fun h => hd ▸ differ _ _ h⟩
  · intro hm
    unfold distanceClamp
    rw [hm]
    exact max_comm _ _

/-- The default polar bounds 0 and `PI` are in order, and there the clamp of a raw phi of
4 is the `min(max(4, 0), PI)` of the spec. -/
theorem C12_clamp_is_max_of_min_witness :
    controls10.minPolarAngle ≤ controls10.maxPolarAngle ∧
      polarClamp controls10 4 =
        specClamp 4 controls10.minPolarAngle controls10.maxPolarAngle :=
  have h : controls10.minPolarAngle ≤ controls10.maxPolarAngle := by
    norm_num [controls10, doublePI]
  ⟨h, (C12_clamp_is_max_of_min controls10 4).2.1 h⟩

/-- With `minDistance = 5` and `maxDistance = 3` and the camera at radius 10, `update()`
holds the radius 5, while `min(max(10, 5), 3)` is 3. -/
theorem C12_misordered_bounds_give_lower_bound :
    (rawSpherical axisThree misorderedDistance).radius = 10 ∧
      (update axisThree misorderedDistance).1._spherical.radius = 5 ∧
      specClamp (10 : ℚ) misorderedDistance.minDistance 3 = 3 ∧
      misorderedDistance.maxDistance = some 3 := by
  refine ⟨?_, ?_, ?_, rfl⟩
  · simp [rawSpherical, misorderedDistance, controls10, camera10, axisThree, Vector3.sub]
  · simp [update, updateSpherical, rawSpherical, makeSafe, mathMin, misorderedDistance,
      controls10, camera10, axisThree, Vector3.sub]
    norm_num
  · norm_num [specClamp, misorderedDistance]

/-- C13 (disabled actions), as the code has it. The handlers never read `enableRotate`
or `enableZoom`: a pointer move and a wheel event on a controller with the flag set to
false give the controller they give with the flag set to true, the flag apart. -/
theorem C13_enable_flags_not_read (T : Three α) (c : OrbitControls α)
    (event : MouseEvent α) (innerHeight : α) (wheel : WheelEvent α) :
    _onMouseMove T { c with enableRotate := false } event innerHeight =
        { _onMouseMove T { c with enableRotate := true } event innerHeight with
          enableRotate := false } ∧
      _onMouseMove T { c with enableZoom := false } event innerHeight =
        { _onMouseMove T { c with enableZoom := true } event innerHeight with
          enableZoom := false } ∧
      _onMouseWheel T { c with enableZoom := false } wheel =
        { _onMouseWheel T { c with enableZoom := true } wheel with
          enableZoom := false } := by
  refine ⟨?_, ?_, rfl⟩
  · unfold _onMouseMove
    by_cases hr : c._state = some _STATE.ROTATE
    · have hd : ¬ c._state = some _STATE.DOLLY := by rw [hr]; decide
      simp only [hr, hd, update_state, if_true, if_false]
      rfl
    · by_cases hd : c._state = some _STATE.DOLLY
      · simp only [hr, hd, update_state, if_true, if_false]
        rfl
      · simp only [hr, hd, if_false]
  · unfold _onMouseMove
    by_cases hr : c._state = some _STATE.ROTATE
    · have hd : ¬ c._state = some _STATE.DOLLY := by rw [hr]; decide
      simp only [hr, hd, update_state, if_true, if_false]
      rfl
    · by_cases hd : c._state = some _STATE.DOLLY
      · simp only [hr, hd, update_state, if_true, if_false]
        rfl
      · simp only [hr, hd, if_false]

/-- With `enableZoom = false` a wheel event with deltaY = +100 still takes the camera from
radius 10 at (0, 0, 10) to radius 11 at (0, 0, 11); with `enableRotate = false` a rotate
move from (100, 100) to (100, 50) still makes the pending delta-phi `PI / 5` and moves phi
from `PI / 2` to `PI / 2 + PI / 5`. -/
theorem C13_disabled_actions_still_act :
    zoomDisabled.enableZoom = false ∧
      zoomDisabled._spherical.radius = 10 ∧
      zoomDisabled.object.position = ⟨0, 0, 10⟩ ∧
      (_onMouseWheel axisThree zoomDisabled ⟨100⟩)._spherical.radius = 11 ∧
      (_onMouseWheel axisThree zoomDisabled ⟨100⟩).object.position = ⟨0, 0, 11⟩ ∧
      rotateDisabledPress.enableRotate = false ∧
      rotateDisabledPress._state = some _STATE.ROTATE ∧
      rotateDisabledPress._sphericalDelta.phi = 0 ∧
      rotateDisabledPress._spherical.phi = doublePI / 2 ∧
      (rotateBranch axisThree rotateDisabledPress ⟨0, 100, 50⟩ 500)._sphericalDelta.phi =
        doublePI / 5 ∧
      (_onMouseMove axisThree rotateDisabledPress ⟨0, 100, 50⟩ 500)._spherical.phi =
        doublePI / 2 + doublePI / 5 := by
  refine ⟨rfl, rfl, rfl, ?_, ?_, rfl, rfl, rfl, rfl, ?_, ?_⟩
  · simp [_onMouseWheel, wheelBranch, update, updateSpherical, rawSpherical, makeSafe,
      mathMin, zoomDisabled, axisThree, controls10, camera10, Vector3.sub, Vector3.add]
    norm_num [doublePI]
  · simp [_onMouseWheel, wheelBranch, update, updateSpherical, rawSpherical, makeSafe,
      mathMin, zoomDisabled, axisThree, controls10, camera10, Vector3.sub, Vector3.add]
    norm_num [doublePI]
  · simp [rotateBranch, rotateDisabledPress, _onMouseDown, controls10, axisThree,
      Vector2.subVectors]
    ring
  · simp [_onMouseMove, _STATE, rotateBranch, rotateDisabledPress, _onMouseDown, update,
      updateSpherical, rawSpherical, makeSafe, mathMin, controls10, camera10, axisThree,
      Vector2.subVectors, Vector3.sub]
    norm_num [doublePI]

end

/-- C14 (pointer-down mapping), as the code has it. Whatever the `mouseButtons` map is,
the pointer-down handler sets the state to Rotate for button 0, to Dolly for button 1 and
to Pan for button 2, which is what the default map assigns (when the three `MOUSE` codes
differ), and records (x, y) as the rotate, pan and dolly start reference; the map is not
read. -/
theorem C14_pointer_down_ignores_map (T : Three α) (c : OrbitControls α)
    (event : MouseEvent α) (m : MouseButtons) :
    (event.button = 0 → (_onMouseDown c event)._state = some _STATE.ROTATE) ∧
      (event.button = 1 → (_onMouseDown c event)._state = some _STATE.DOLLY) ∧
      (event.button = 2 → (_onMouseDown c event)._state = some _STATE.PAN) ∧
      (_onMouseDown c event)._rotateStart = ⟨event.clientX, event.clientY⟩ ∧
      (_onMouseDown c event)._panStart = ⟨event.clientX, event.clientY⟩ ∧
      (_onMouseDown c event)._dollyStart = ⟨event.clientX, event.clientY⟩ ∧
      _onMouseDown { c with mouseButtons := m } event =
        { _onMouseDown c event with mouseButtons := m } ∧
      (T.MOUSE_ROTATE ≠ T.MOUSE_DOLLY → T.MOUSE_ROTATE ≠ T.MOUSE_PAN →
        T.MOUSE_DOLLY ≠ T.MOUSE_PAN →
        event.button = 0 ∨ event.button = 1 ∨ event.button = 2 →
        (_onMouseDown c event)._state =
          specPointerDownState T ⟨T.MOUSE_ROTATE, T.MOUSE_DOLLY, T.MOUSE_PAN⟩
            event.button) := by
  have h0 : event.button = 0 → (_onMouseDown c event)._state = some _STATE.ROTATE := by
    intro h
    simp [_onMouseDown, h]
  have h1 : event.button = 1 → (_onMouseDown c event)._state = some _STATE.DOLLY := by
    intro h
    simp [_onMouseDown, h]
  have h2 : event.button = 2 → (_onMouseDown c event)._state = some _STATE.PAN := by
    intro h
    simp [_onMouseDown, h]
  refine ⟨h0, h1, h2, rfl, rfl, rfl, ?_, ?_⟩
  · unfold _onMouseDown
    split_ifs <;> rfl
  · intro hrd hrp hdp hb
    rcases hb with h | h | h
    · rw [h0 h, h]
      simp [specPointerDownState, mappedAction]
    · rw [h1 h, h]
      simp [specPointerDownState, mappedAction, hrd.symm]
    · rw [h2 h, h]
      simp [specPointerDownState, mappedAction, hrp.symm, hdp.symm]

/-- On the default controller a press of button 1 at (10, 20) sets the state to Dolly,
as the default map assigns, and records (10, 20) as the dolly reference. -/
theorem C14_pointer_down_ignores_map_witness :
    (_onMouseDown controls10 ⟨1, 10, 20⟩)._state = some _STATE.DOLLY ∧
      (_onMouseDown controls10 ⟨1, 10, 20⟩)._state =
        specPointerDownState axisThree
          ⟨axisThree.MOUSE_ROTATE, axisThree.MOUSE_DOLLY, axisThree.MOUSE_PAN⟩ 1 ∧
      (_onMouseDown controls10 ⟨1, 10, 20⟩)._dollyStart = ⟨10, 20⟩ :=
  have h := C14_pointer_down_ignores_map axisThree controls10 ⟨1, 10, 20⟩ ⟨0, 1, 2⟩
  ⟨h.2.1 rfl,
    h.2.2.2.2.2.2.2 (by decide) (by decide) (by decide) (Or.inr (Or.inl rfl)),
    h.2.2.2.2.2.1⟩

/-- With the map LEFT: `MOUSE.PAN`, MIDDLE: `MOUSE.DOLLY`, RIGHT: `MOUSE.ROTATE`, a press
of button 0 sets the state to Rotate, where the map assigns Pan. -/
theorem C14_swapped_map_not_followed :
    swappedButtons.mouseButtons = ⟨axisThree.MOUSE_PAN, axisThree.MOUSE_DOLLY,
        axisThree.MOUSE_ROTATE⟩ ∧
      (_onMouseDown swappedButtons ⟨0, 10, 20⟩)._state = some _STATE.ROTATE ∧
      specPointerDownState axisThree swappedButtons.mouseButtons 0 = some _STATE.PAN ∧
      _STATE.ROTATE ≠ _STATE.PAN := by
  refine ⟨rfl, ?_, ?_, by decide⟩
  · simp [_onMouseDown, swappedButtons]
  · simp [specPointerDownState, mappedAction, swappedButtons, controls10, axisThree]

section
variable [LinearOrderedField α]

/-- C15 (idle moves do nothing). When the interaction state is NONE, as the `mouseup`
listener sets it, or was never set, a pointer move to any (x, y) returns the controller
unchanged, every field of it. -/
theorem C15_idle_move_changes_nothing (T : Three α) (c : OrbitControls α)
    (event : MouseEvent α) (innerHeight : α)
    (hidle : c._state = none ∨ c._state = some _STATE.NONE) :
    _onMouseMove T c event innerHeight = c := by
  apply _onMouseMove_of_other_state
  · rcases hidle with h | h <;> rw [h] <;> decide
  · rcases hidle with h | h <;> rw [h] <;> decide

/-- The freshly constructed controller, whose state was never set, and the controller
after a pointer-up both come back unchanged from a pointer move to (30, 40). -/
theorem C15_idle_move_changes_nothing_witness :
    controls10._state = none ∧ released._state = some _STATE.NONE ∧
      _onMouseMove axisThree controls10 ⟨0, 30, 40⟩ 500 = controls10 ∧
      _onMouseMove axisThree released ⟨0, 30, 40⟩ 500 = released :=
  ⟨rfl, rfl,
    C15_idle_move_changes_nothing axisThree controls10 ⟨0, 30, 40⟩ 500 (Or.inl rfl),
    C15_idle_move_changes_nothing axisThree released ⟨0, 30, 40⟩ 500 (Or.inr rfl)⟩

/-- C16 (theta normalisation), as the code has it. The theta held after `update()` is the
azimuth derived from the camera position plus the pending delta-theta, with no
normalisation; it lies in `(-PI, PI]` exactly when that sum does. -/
theorem C16_theta_is_raw_plus_delta (T : Three α) (c : OrbitControls α) :
    (update T c).1._spherical.theta =
        (rawSpherical T c).theta + c._sphericalDelta.theta ∧
      ((-T.PI < (update T c).1._spherical.theta ∧
          (update T c).1._spherical.theta ≤ T.PI) ↔
        (-T.PI < (rawSpherical T c).theta + c._sphericalDelta.theta ∧
          (rawSpherical T c).theta + c._sphericalDelta.theta ≤ T.PI)) :=
  ⟨rfl, Iff.rfl⟩

/-- With damping switched off and a pending delta-theta of `2 * PI` (the full-turn rotate
drag) on a camera with azimuth 0, `update()` holds theta `2 * PI`, above `PI`. -/
theorem C16_theta_exceeds_pi :
    fullTurnDrag.enableDamping = false ∧
      fullTurnDrag._sphericalDelta.theta = 2 * axisThree.PI ∧
      (rawSpherical axisThree fullTurnDrag).theta = 0 ∧
      (update axisThree fullTurnDrag).1._spherical.theta = 2 * axisThree.PI ∧
      axisThree.PI < (update axisThree fullTurnDrag).1._spherical.theta := by
  have hd : fullTurnDrag._sphericalDelta.theta = 2 * axisThree.PI := by
    simp [fullTurnDrag, rotateBranch, _onMouseDown, controlsUndamped, controls10,
      axisThree, Vector2.subVectors]
    ring
  have hr : (rawSpherical axisThree fullTurnDrag).theta = 0 := by
    simp [rawSpherical, fullTurnDrag, rotateBranch, _onMouseDown, controlsUndamped,
      controls10, camera10, axisThree, Vector3.sub]
  have ht : (update axisThree fullTurnDrag).1._spherical.theta = 2 * axisThree.PI := by
    rw [update_spherical, updateSpherical_theta, hr, hd, zero_add]
  refine ⟨rfl, hd, hr, ht, ?_⟩
  rw [ht]
  norm_num [axisThree, doublePI]

/-- C17 (pan), as the code has it. In the Pan state a pointer move returns the controller
unchanged, so no pan offset is accumulated; and `update()` leaves the target and the pan
offset as they are. -/
theorem C17_pan_move_changes_nothing (T : Three α) (c : OrbitControls α)
    (event : MouseEvent α) (innerHeight : α) (hstate : c._state = some _STATE.PAN) :
    _onMouseMove T c event innerHeight = c ∧
      (update T c).1.target = c.target ∧
      (update T c).1._panOffset = c._panOffset := by
  refine ⟨?_, rfl, rfl⟩
  apply _onMouseMove_of_other_state
  · rw [hstate]; decide
  · rw [hstate]; decide

/-- The default controller after a press of the right button at (0, 0) comes back
unchanged from a pointer move to (30, 40). -/
theorem C17_pan_move_changes_nothing_witness :
    panPress._state = some _STATE.PAN ∧
      _onMouseMove axisThree panPress ⟨2, 30, 40⟩ 500 = panPress :=
  ⟨rfl, (C17_pan_move_changes_nothing axisThree panPress ⟨2, 30, 40⟩ 500 rfl).1⟩

/-- With `enablePan = true`, after a press of the right button at (0, 0), a pointer move
to (30, 40) leaves the pan offset (0, 0, 0), and the `update()` that follows leaves the
target at (0, 0, 0) and the camera at (0, 0, 10). -/
theorem C17_pan_offset_stays_zero :
    panPress._state = some _STATE.PAN ∧ panPress.enablePan = true ∧
      panPress._panStart = ⟨0, 0⟩ ∧
      (_onMouseMove axisThree panPress ⟨2, 30, 40⟩ 500)._panOffset = ⟨0, 0, 0⟩ ∧
      panPress.target = ⟨0, 0, 0⟩ ∧
      (update axisThree (_onMouseMove axisThree panPress ⟨2, 30, 40⟩ 500)).1.target =
        ⟨0, 0, 0⟩ ∧
      panPress.object.position = ⟨0, 0, 10⟩ ∧
      (update axisThree (_onMouseMove axisThree panPress ⟨2, 30, 40⟩ 500)).1.object.position
        = ⟨0, 0, 10⟩ := by
  have hmove : _onMouseMove axisThree panPress ⟨2, 30, 40⟩ 500 = panPress :=
    _onMouseMove_of_other_state axisThree panPress ⟨2, 30, 40⟩ 500 (by decide) (by decide)
  refine ⟨rfl, rfl, rfl, ?_, rfl, ?_, rfl, ?_⟩
  · rw [hmove]; rfl
  · rw [hmove]; rfl
  · rw [hmove]
    simp [update, updateSpherical, rawSpherical, makeSafe, mathMin, panPress, _onMouseDown,
      controls10, camera10, axisThree, Vector3.sub, Vector3.add]
    norm_num [doublePI]

/-- C18 (dolly translation). In the Dolly state a pointer move to (x, y) multiplies the
pending scale by `1 + (y - dy) * 0.005`, where (dx, dy) is the dolly reference, sets the
dolly reference to (x, y) and calls `update()`. When the pending scale was 1, as
`update()` leaves it, and the product lies between the distance bounds, the radius held
after the call is the radius of the camera before times that factor, of either sign. -/
theorem C18_dolly_move_scales_radius (T : Three α) (c : OrbitControls α)
    (event : MouseEvent α) (innerHeight : α) (hstate : c._state = some _STATE.DOLLY) :
    (dollyBranch c event)._scale =
        c._scale * (1 + (event.clientY - c._dollyStart.y) * 0.005) ∧
      (dollyBranch c event)._dollyStart = ⟨event.clientX, event.clientY⟩ ∧
      _onMouseMove T c event innerHeight = (update T (dollyBranch c event)).1 ∧
      (_onMouseMove T c event innerHeight)._dollyStart =
        ⟨event.clientX, event.clientY⟩ ∧
      (c._scale = 1 →
        c.minDistance ≤
          (rawSpherical T c).radius * (1 + (event.clientY - c._dollyStart.y) * 0.005) →
        leInf ((rawSpherical T c).radius *
          (1 + (event.clientY - c._dollyStart.y) * 0.005)) c.maxDistance →
        (_onMouseMove T c event innerHeight)._spherical.radius =
          (rawSpherical T c).radius *
            (1 + (event.clientY - c._dollyStart.y) * 0.005)) := by
  have hmove := _onMouseMove_of_dolly T c event innerHeight hstate
  refine ⟨rfl, rfl, hmove, by rw [hmove]; rfl, ?_⟩
  intro hscale hlo hhi
  rw [hmove]
  show max c.minDistance (mathMin c.maxDistance ((rawSpherical T c).radius *
    (c._scale * (1 + (event.clientY - c._dollyStart.y) * 0.005)))) = _
  rw [hscale, one_mul]
  cases hm : c.maxDistance with
  | none => exact max_eq_right hlo
  | some m =>
    rw [hm] at hhi
    show max c.minDistance (min m _) = _
    rw [min_eq_right hhi, max_eq_right hlo]

/-- The default controller after a press of the middle button at (0, 0), then a move to
(0, 100): the factor is `1 + 100 * 0.005 = 1.5` and the radius goes from 10 to 15. -/
theorem C18_dolly_move_scales_radius_witness :
    dollyPress._state = some _STATE.DOLLY ∧
      (dollyBranch dollyPress ⟨1, 0, 100⟩)._scale = 1.5 ∧
      (_onMouseMove axisThree dollyPress ⟨1, 0, 100⟩ 500)._spherical.radius = 15 := by
  have h := C18_dolly_move_scales_radius axisThree dollyPress ⟨1, 0, 100⟩ 500 rfl
  have hraw : (rawSpherical axisThree dollyPress).radius = 10 := by
    simp [rawSpherical, dollyPress, _onMouseDown, controls10, camera10, axisThree,
      Vector3.sub]
  have hstart : dollyPress._dollyStart.y = 0 := rfl
  have hscale : dollyPress._scale = 1 := rfl
  refine ⟨rfl, ?_, ?_⟩
  · rw [h.1, hstart, hscale]; norm_num
  · rw [h.2.2.2.2 hscale (by rw [hraw, hstart]; norm_num [dollyPress, _onMouseDown,
      controls10]) trivial, hraw, hstart]
    norm_num

/-- C19 (misordered bounds resolve to the lower bound). When `maxDistance` is below
`minDistance`, the radius after `update()` is `minDistance`, whatever the raw radius; when
`maxPolarAngle` is below `minPolarAngle`, the polar clamp of `update()` gives
`minPolarAngle`, whatever the raw phi, and `update()` holds its pole-guarded value. -/
theorem C19_misordered_bounds_resolve_to_lower (T : Three α) (c : OrbitControls α) :
    (∀ hi : α, c.maxDistance = some hi → hi < c.minDistance →
        (∀ x : α, distanceClamp c x = c.minDistance) ∧
          (update T c).1._spherical.radius = c.minDistance) ∧
      (c.maxPolarAngle < c.minPolarAngle →
        (∀ x : α, polarClamp c x = c.minPolarAngle) ∧
          (update T c).1._spherical.phi =
            max T.EPS (min (T.PI - T.EPS) c.minPolarAngle)) := by
  constructor
  · intro hi hm h
    have hd : ∀ x : α, distanceClamp c x = c.minDistance := by
      intro x
      unfold distanceClamp
      rw [hm]
      exact clamp_of_ge _ _ _ h.le
    exact ⟨hd, hd _⟩
  · intro h
    have hp : ∀ x : α, polarClamp c x = c.minPolarAngle :=
      fun x => clamp_of_ge _ _ _ h.le
    refine ⟨hp, ?_⟩
    rw [update_spherical, updateSpherical_phi]
    exact congrArg (fun y => max T.EPS (min (T.PI - T.EPS) y)) (hp _)

/-- The controller with `minDistance = 5 > maxDistance = 3` ends at radius 5, and the one
with `minPolarAngle = 2 > maxPolarAngle = 1` at phi 2. -/
theorem C19_misordered_bounds_resolve_to_lower_witness :
    (update axisThree misorderedDistance).1._spherical.radius = 5 ∧
      polarClamp misorderedPolar (doublePI / 2) = 2 ∧
      (update axisThree misorderedPolar).1._spherical.phi = 2 := by
  have hd := (C19_misordered_bounds_resolve_to_lower axisThree misorderedDistance).1 3 rfl
    (by norm_num [misorderedDistance])
  have hp := (C19_misordered_bounds_resolve_to_lower axisThree misorderedPolar).2
    (by norm_num [misorderedPolar])
  refine ⟨hd.2, hp.1 _, hp.2.trans ?_⟩
  norm_num [misorderedPolar, axisThree, doublePI]

/-- C20 (pending input consumed, target fixed). After `update()`, whatever
`enableDamping` is, the pending delta-theta and delta-phi are 0 and the pending scale is
1; `update()` and every handler leave the target and the distance and polar bounds as
they are; so in the controller reached from the constructor by any sequence of events
nothing is pending, and the target and the bounds are those of the constructor. -/
theorem C20_pending_consumed_target_fixed (T : Three α) (c : OrbitControls α)
    (i : Input α) (object : Object3D α) (inputs : List (Input α)) :
    ((update T c).1._sphericalDelta.theta = 0 ∧ (update T c).1._sphericalDelta.phi = 0 ∧
        (update T c).1._scale = 1) ∧
      ((update T c).1.target = c.target ∧ limits (update T c).1 = limits c) ∧
      ((dispatch T c i).target = c.target ∧ limits (dispatch T c i) = limits c) ∧
      ((run T (constructor T object) inputs)._sphericalDelta.theta = 0 ∧
        (run T (constructor T object) inputs)._sphericalDelta.phi = 0 ∧
        (run T (constructor T object) inputs)._scale = 1 ∧
        (run T (constructor T object) inputs).target = (constructor T object).target ∧
        limits (run T (constructor T object) inputs) = limits (constructor T object)) := by
  obtain ⟨ht, hl, hp⟩ := run_frame T inputs (constructor T object)
  obtain ⟨hs, hk⟩ := hp rfl rfl
  refine ⟨⟨rfl, rfl, rfl⟩, ⟨rfl, rfl⟩, ⟨(dispatch_target T c i).1, dispatch_limits T c i⟩,
    ?_, ?_, hk, ht, hl⟩
  · rw [hs]
  · rw [hs]

end

end Orbit
